import Mathlib

/-!
# Neon-Catcher: cross-origin-isolation shim

A shallow embedding of the two scripts under `web/`:

* `coi-serviceworker.js`: the service worker whose `fetch` listener re-issues each
  request and answers with a copy of the network response carrying the two isolation
  headers;
* `enable_coi.js`: the page script that registers the worker and reloads the page when
  the installing worker settles.

The scripts are a few lines of glue over browser interfaces, so the embedding has two
layers.  The *platform* layer states the algorithms of the Fetch, HTML and Service
Worker standards that the scripts call (`Headers`, `Response`, `sessionStorage`, event
dispatch).  The *program* layer translates the two scripts line by line on top of it.
-/

namespace NeonCatcher

/-! ## Platform layer -/

/-- A JavaScript exception value: the name of its class and its message. -/
structure JSError where
  name : String
  message : String
  deriving DecidableEq, Repr

/-- A header of the Fetch standard: a name and a value (both byte strings). -/
abbrev Header := String × String

/-- A header list of the Fetch standard. -/
abbrev HeaderList := List Header

/-- Byte-lowercase one byte: `A`..`Z` (0x41..0x5A) are moved up by 0x20. -/
def byteLowercaseChar (c : Char) : Char :=
  if 65 ≤ c.toNat ∧ c.toNat ≤ 90 then Char.ofNat (c.toNat + 32) else c

/-- Byte-lowercase a byte string. -/
def byteLowercase (s : String) : String :=
  String.mk (s.data.map byteLowercaseChar)

/-- Byte-case-insensitive match of two header names. -/
def nameMatches (a b : String) : Bool :=
  decide (byteLowercase a = byteLowercase b)

/-- HTTP whitespace bytes: LF, CR, HTAB and SP. -/
def isHTTPWhitespace (c : Char) : Bool :=
  c.toNat == 10 || c.toNat == 13 || c.toNat == 9 || c.toNat == 32

/-- Normalize a header value: remove leading and trailing HTTP whitespace bytes. -/
def normalizeValue (value : String) : String :=
  String.mk ((value.data.dropWhile isHTTPWhitespace).rdropWhile isHTTPWhitespace)

/-- A header list contains `name` when one of its headers has a byte-case-insensitively
matching name. -/
def HeaderList.contains (list : HeaderList) (name : String) : Bool :=
  list.any fun h => nameMatches h.1 name

/-- The values, in order, of the headers of `list` whose name matches `name`. -/
def HeaderList.values (list : HeaderList) (name : String) : List String :=
  (list.filter fun h => nameMatches h.1 name).map Prod.snd

/-- Get `name` from a header list: `null` when the list does not contain it, else the
values of all matching headers joined by `", "` (0x2C 0x20), in order.  This is what
`Headers.prototype.get` returns. -/
def HeaderList.get (list : HeaderList) (name : String) : Option String :=
  if list.contains name then some (", ".intercalate (list.values name)) else none

/-- Set `(name, value)` in a header list: when the list contains `name`, the first
matching header receives the value and the other matching headers are removed;
otherwise the header is added at the end. -/
def HeaderList.set : HeaderList → String → String → HeaderList
  | [], name, value => [(name, value)]
  | h :: rest, name, value =>
    if nameMatches h.1 name then
      (h.1, value) :: rest.filter fun h2 => !nameMatches h2.1 name
    else
      h :: HeaderList.set rest name value

/-- Append `(name, value)` to a header list: when the list contains `name`, the casing of
the first matching header's name is reused; the header is added at the end. -/
def HeaderList.append (list : HeaderList) (name value : String) : HeaderList :=
  match list.find? fun h => nameMatches h.1 name with
  | some h => list ++ [(h.1, value)]
  | none => list ++ [(name, value)]

/-- Convert header names to a sorted-lowercase set: byte-lowercase every name, drop
repetitions, sort ascending in byte order (the sort makes the order in which
repetitions are dropped immaterial). -/
def sortedLowercaseSet (names : List String) : List String :=
  ((names.map byteLowercase).dedup).insertionSort fun a b => a.data ≤ b.data

/-- The headers that sort-and-combine makes for one lower-cased name: a `set-cookie`
header per value, and for any other name a single header carrying the combined value. -/
def combinedFor (list : HeaderList) (name : String) : HeaderList :=
  if name = "set-cookie" then
    (list.values name).map fun value => (name, value)
  else
    match list.get name with
    | some value => [(name, value)]
    | none => []

/-- Sort and combine a header list: for each name of the sorted-lowercase set, in
order, its combined headers.  These are the pairs that iterating a `Headers` object
yields. -/
def HeaderList.sortAndCombine (list : HeaderList) : HeaderList :=
  (sortedLowercaseSet (list.map Prod.fst)).flatMap (combinedFor list)

/-- The guard of a `Headers` object, as far as this program creates them: `new Headers`
makes a guard-"none" object and `new Response` owns a guard-"response" object. -/
inductive HeadersGuard where
  | none
  | response
  deriving DecidableEq, Repr

/-- Forbidden response-header names: `Set-Cookie` and `Set-Cookie2`, in any casing. -/
def isForbiddenResponseHeaderName (name : String) : Bool :=
  nameMatches name "set-cookie" || nameMatches name "set-cookie2"

/-- Append a header to a `Headers` object with the given guard: the value is normalized,
a guard-"response" object ignores forbidden response-header names, and the header is
appended to the object's header list.  (Validation of the name and value syntax is not
modelled: every pair handled by this program is read out of an existing `Headers`
object or is one of its two literal headers.) -/
def Headers.append (guard : HeadersGuard) (list : HeaderList) (name value : String) :
    HeaderList :=
  if guard = HeadersGuard.response ∧ isForbiddenResponseHeaderName name then list
  else list.append name (normalizeValue value)

/-- What a `Headers` object with the given guard keeps of a header appended to it:
nothing for a name its guard ignores, else the header with its value normalized. -/
def keptPair (guard : HeadersGuard) (h : Header) : Option Header :=
  if guard = HeadersGuard.response ∧ isForbiddenResponseHeaderName h.1 then none
  else some (h.1, normalizeValue h.2)

/-- The method `Headers.prototype.set(name, value)` on an object with the given guard. -/
def Headers.set (guard : HeadersGuard) (list : HeaderList) (name value : String) :
    HeaderList :=
  if guard = HeadersGuard.response ∧ isForbiddenResponseHeaderName name then list
  else list.set name (normalizeValue value)

/-- Fill a `Headers` object from another `Headers` object `init`: `init` is read through
its iterator, that is sorted and combined, and each pair is appended. -/
def Headers.fill (guard : HeadersGuard) (list : HeaderList) (init : HeaderList) :
    HeaderList :=
  (HeaderList.sortAndCombine init).foldl (fun acc h => Headers.append guard acc h.1 h.2) list

/-- The constructor `new Headers(init)` for `init` a `Headers` object. -/
def Headers.new (init : HeaderList) : HeaderList :=
  Headers.fill HeadersGuard.none [] init

/-- A response body: `null` or a stream, represented by the bytes it delivers. -/
abbrev Body := Option (List Nat)

/-- The part of a `Response` object that the worker reads and produces. -/
structure Response where
  status : Nat
  statusText : String
  headers : HeaderList
  body : Body
  deriving DecidableEq, Repr

/-- The `reason-phrase` production: any of HTAB, SP, VCHAR and obs-text. -/
def isReasonPhrase (statusText : String) : Bool :=
  statusText.data.all fun c =>
    c.toNat == 9 || c.toNat == 32 || (33 ≤ c.toNat && c.toNat ≤ 126) ||
      (128 ≤ c.toNat && c.toNat ≤ 255)

/-- Null body statuses: 101, 103, 204, 205 and 304. -/
def isNullBodyStatus (status : Nat) : Bool :=
  status == 101 || status == 103 || status == 204 || status == 205 || status == 304

/-- The constructor `new Response(body, { status, statusText, headers })` with `headers`
a `Headers` object: it throws a `RangeError` unless `200 ≤ status ≤ 599`, a `TypeError`
when the status text is not a reason phrase, fills its guard-"response" headers from
`headers`, and throws a `TypeError` for a non-null body with a null body status.  (A
stream body makes no `Content-Type` header; a stream just obtained from `fetch` is
neither disturbed nor locked.) -/
def Response.new (body : Body) (status : Nat) (statusText : String) (headers : HeaderList) :
    Except JSError Response :=
  if ¬ (200 ≤ status ∧ status ≤ 599) then
    Except.error ⟨"RangeError", "The status provided is outside the range [200, 599]."⟩
  else if ¬ isReasonPhrase statusText then
    Except.error ⟨"TypeError", "Invalid statusText"⟩
  else if body.isSome ∧ isNullBodyStatus status then
    Except.error ⟨"TypeError", "Response with null body status cannot have body"⟩
  else
    Except.ok
      { status := status
        statusText := statusText
        headers := Headers.fill HeadersGuard.response [] headers
        body := body }

/-- The method `String.prototype.startsWith(searchString)`. -/
def startsWith (s searchString : String) : Bool :=
  searchString.data.isPrefixOf s.data

/-! ## `coi-serviceworker.js` -/

/-- The fields of a `Request` that the `fetch` listener reads. -/
structure Request where
  url : String
  cache : String
  mode : String
  deriving DecidableEq, Repr

/-- Platform calls made while a `fetch` event is handled. -/
inductive Call where
  | fetch (request : Request)
  | newHeaders
  | headersSet (name value : String)
  | newResponse
  deriving DecidableEq, Repr

/-- What handling one `fetch` event amounts to: the platform calls made, and the
settlement of the promise handed to `event.respondWith` (`none` when `respondWith` is
not called and the browser handles the request itself). -/
structure Handled where
  calls : List Call
  respondWith : Option (Except JSError Response)

/-- The `fetch` listener of `coi-serviceworker.js`.  `fetch` is the network: its answer
to a request is a response or a rejection. -/
def fetchListener (fetch : Request → Except JSError Response) (request : Request) :
    Handled :=
  if request.cache = "only-if-cached" ∧ request.mode ≠ "same-origin" then
    { calls := [], respondWith := none }
  else if startsWith request.url "chrome-extension://" then
    { calls := [], respondWith := none }
  else
    match fetch request with
    | Except.error e =>
      { calls := [Call.fetch request], respondWith := some (Except.error e) }
    | Except.ok response =>
      let newHeaders := Headers.new response.headers
      let newHeaders :=
        Headers.set HeadersGuard.none newHeaders "Cross-Origin-Opener-Policy" "same-origin"
      let newHeaders :=
        Headers.set HeadersGuard.none newHeaders "Cross-Origin-Embedder-Policy" "require-corp"
      { calls :=
          [Call.fetch request, Call.newHeaders,
            Call.headersSet "Cross-Origin-Opener-Policy" "same-origin",
            Call.headersSet "Cross-Origin-Embedder-Policy" "require-corp",
            Call.newResponse]
        respondWith :=
          some (Response.new response.body response.status response.statusText newHeaders) }

/-! ## `enable_coi.js` -/

/-- The session storage area: its key/value pairs in insertion order. -/
abbrev Storage := List (String × String)

/-- The method `sessionStorage.getItem(key)`: the stored value, or `null`. -/
def Storage.getItem (storage : Storage) (key : String) : Option String :=
  (storage.find? fun kv => kv.1 = key).map Prod.snd

/-- The storage area with `key` set to `value`: an existing key keeps its place and
receives the value, a new key is added at the end. -/
def Storage.withItem : Storage → String → String → Storage
  | [], key, value => [(key, value)]
  | kv :: rest, key, value =>
    if kv.1 = key then (key, value) :: rest else kv :: Storage.withItem rest key value

/-- The space a storage area takes: the lengths of its keys and values, added up. -/
def Storage.size (storage : Storage) : Nat :=
  (storage.map fun kv => kv.1.length + kv.2.length).sum

/-- The exception of a write that the storage area cannot take. -/
def quotaExceededError : JSError :=
  { name := "QuotaExceededError", message := "The quota has been exceeded." }

/-- The method `sessionStorage.setItem(key, value)` on a storage area with the given
quota: the area with the key set, or a `QuotaExceededError` when the area with the key
set would not fit the quota (a quota of 0 is a browser that refuses every write). -/
def Storage.setItem (storage : Storage) (quota : Nat) (key value : String) :
    Except JSError Storage :=
  if (storage.withItem key value).size ≤ quota then Except.ok (storage.withItem key value)
  else Except.error quotaExceededError

/-- Truthiness of what `getItem` returns: `null` and the empty string are falsy. -/
def truthy : Option String → Bool
  | none => false
  | some s => s ≠ ""

/-- The environment in which the page script starts. -/
structure Env where
  /-- Truthiness of `globalThis.crossOriginIsolated`. -/
  crossOriginIsolated : Bool
  /-- Whether `'serviceWorker' in navigator` holds. -/
  serviceWorker : Bool
  /-- The exception thrown by reading `sessionStorage` where the page is denied access
  to storage (`none` where it is granted). -/
  storageDenied : Option JSError
  /-- The content of the session storage area. -/
  storage : Storage
  /-- The quota of the session storage area. -/
  quota : Nat
  /-- The settlement of the promise returned by `navigator.serviceWorker.register`:
  `none` when it resolves with a registration, `some err` when it rejects with `err`. -/
  registerRejects : Option JSError

/-- Observable actions of the page script.  A `setItem` entry records the call and the
exception it threw, if any. -/
inductive Effect where
  | warn (message : String) (detail : Option JSError)
  | getItem (key : String)
  | setItem (key value : String) (thrown : Option JSError)
  | register (scriptURL : String)
  | addUpdatefoundListener
  | addStatechangeListener (worker : Nat)
  | reload
  deriving DecidableEq, Repr

/-- The page while the script's listeners are alive: the storage area and its quota,
the actions performed so far, whether the `updatefound` listener is attached to the registration,
and the workers that carry a `statechange` listener (one entry per listener, in the
order of attachment).  Workers are named by numbers. -/
structure Page where
  storage : Storage
  quota : Nat
  trace : List Effect
  observing : Bool
  watched : List Nat
  deriving DecidableEq, Repr

/-- The body of `enable_coi.js` up to the settlement of the registration promise: the
result is the exception that escapes the script, or the page as the script leaves it. -/
def coordinator (env : Env) : Except JSError Page :=
  if env.crossOriginIsolated then
    Except.ok
      { storage := env.storage, quota := env.quota, trace := [], observing := false
        watched := [] }
  else if !env.serviceWorker then
    Except.ok
      { storage := env.storage
        quota := env.quota
        trace :=
          [Effect.warn "COOP/COEP service worker not available: serviceWorker API missing."
            none]
        observing := false
        watched := [] }
  else
    match env.storageDenied with
    | some e => Except.error e
    | none =>
      let alreadyReloaded := env.storage.getItem "coi-reloaded"
      let trace := [Effect.getItem "coi-reloaded", Effect.register "./coi-serviceworker.js"]
      match env.registerRejects with
      | some err =>
        Except.ok
          { storage := env.storage
            quota := env.quota
            trace :=
              trace ++ [Effect.warn "COOP/COEP service worker registration failed:" (some err)]
            observing := false
            watched := [] }
      | none =>
        if truthy alreadyReloaded then
          Except.ok
            { storage := env.storage, quota := env.quota, trace := trace, observing := false
              watched := [] }
        else
          Except.ok
            { storage := env.storage
              quota := env.quota
              trace := trace ++ [Effect.addUpdatefoundListener]
              observing := true
              watched := [] }

/-- An event delivered to the page: `updatefound` on the registration, together with the
value of `registration.installing` that the listener reads, or `statechange` on a
worker, together with the value of its `state` that the listener reads. -/
inductive Event where
  | updatefound (installing : Option Nat)
  | statechange (worker : Nat) (state : String)
  deriving DecidableEq, Repr

/-- The `statechange` listener (one invocation).  When `setItem` throws, the exception
leaves the listener before `location.reload()` is reached. -/
def statechangeListener (page : Page) (state : String) : Page :=
  if state = "activated" ∨ state = "redundant" then
    match page.storage.setItem page.quota "coi-reloaded" "1" with
    | Except.ok storage =>
      { page with
        storage := storage
        trace := page.trace ++ [Effect.setItem "coi-reloaded" "1" none, Effect.reload] }
    | Except.error e =>
      { page with trace := page.trace ++ [Effect.setItem "coi-reloaded" "1" (some e)] }
  else page

/-- The `updatefound` listener (one invocation). -/
def updatefoundListener (page : Page) (installing : Option Nat) : Page :=
  match installing with
  | none => page
  | some installingWorker =>
    { page with
      trace := page.trace ++ [Effect.addStatechangeListener installingWorker]
      watched := page.watched ++ [installingWorker] }

/-- Dispatch of one event: every listener attached to the event's target runs once, in
the order of attachment (an exception that leaves a listener is reported and the next
listener runs). -/
def dispatch (page : Page) : Event → Page
  | Event.updatefound installing =>
    if page.observing then updatefoundListener page installing else page
  | Event.statechange worker state =>
    (page.watched.filter fun w => w = worker).foldl
      (fun p _ => statechangeListener p state) page

/-- Delivery of a sequence of events, in order. -/
def run (page : Page) (events : List Event) : Page :=
  events.foldl dispatch page

/-- One page load: the script runs, then the events are delivered to its listeners. -/
def pageLoad (env : Env) (events : List Event) : Except JSError Page :=
  match coordinator env with
  | Except.ok page => Except.ok (run page events)
  | Except.error e => Except.error e

/-- The number of `location.reload()` calls in a trace. -/
def reloadCount (trace : List Effect) : Nat :=
  trace.count Effect.reload

/-- The number of `location.reload()` calls of a page load (none when the script is
stopped by an exception before it attaches a listener). -/
def reloads : Except JSError Page → Nat
  | Except.ok page => reloadCount page.trace
  | Except.error _ => 0

/-- The two actions of a `statechange` listener that sees a settled worker and whose
write is taken, `n` times over. -/
def markAndReload (n : Nat) : List Effect :=
  (List.replicate n [Effect.setItem "coi-reloaded" "1" none, Effect.reload]).flatten

/-- The workers read from `registration.installing` by the `updatefound` events of a
sequence. -/
def installingWorkers (events : List Event) : List Nat :=
  events.filterMap fun e =>
    match e with
    | Event.updatefound installing => installing
    | Event.statechange _ _ => none

/-! ## Sample inputs -/

/-- A same-origin request with the default cache mode. -/
def sampleRequest : Request :=
  { url := "https://example.org/index.html", cache := "default", mode := "same-origin" }

/-- A network response whose server already sends an opener policy. -/
def sampleResponse : Response :=
  { status := 200
    statusText := "OK"
    headers := [("Content-Type", "text/html"), ("Cross-Origin-Opener-Policy", "unsafe-none")]
    body := some [60, 104, 49, 62] }

/-- A network that answers every request with `sampleResponse`. -/
def sampleNetwork : Request → Except JSError Response :=
  fun _ => Except.ok sampleResponse

/-- A cross-origin `no-cors` request, as made for an image of another site. -/
def imageRequest : Request :=
  { url := "https://cdn.example.net/sprite.png", cache := "default", mode := "no-cors" }

/-- The opaque response that `fetch` yields for a cross-origin `no-cors` request. -/
def opaqueResponse : Response :=
  { status := 0, statusText := "", headers := [], body := none }

/-- A network that answers every request with `opaqueResponse`. -/
def opaqueNetwork : Request → Except JSError Response :=
  fun _ => Except.ok opaqueResponse

/-- The first visit of a tab: not isolated, service workers supported, empty storage,
registration succeeds. -/
def firstVisit : Env :=
  { crossOriginIsolated := false
    serviceWorker := true
    storageDenied := none
    storage := []
    quota := 5000000
    registerRejects := none }

/-- A first visit in a browser that refuses every write to session storage. -/
def refusingVisit : Env :=
  { firstVisit with quota := 0 }

/-! # Proofs -/

/-! ## Header lists: lemmas -/

theorem byteLowercaseChar_idem (c : Char) :
    byteLowercaseChar (byteLowercaseChar c) = byteLowercaseChar c := by
  unfold byteLowercaseChar
  split
  · rename_i h
    have hc : c = Char.ofNat c.toNat := (Char.ofNat_toNat c).symm
    obtain ⟨h1, h2⟩ := h
    generalize c.toNat = n at *
    subst hc
    interval_cases n <;> decide
  · rename_i h
    simp [h]

theorem byteLowercase_idem (s : String) : byteLowercase (byteLowercase s) = byteLowercase s := by
  unfold byteLowercase
  simp only [List.map_map]
  congr 1
  apply List.map_congr_left
  intro c _
  exact byteLowercaseChar_idem c

theorem nameMatches_iff (a b : String) :
    nameMatches a b = true ↔ byteLowercase a = byteLowercase b := by
  simp [nameMatches]

theorem nameMatches_eq_false_iff (a b : String) :
    nameMatches a b = false ↔ byteLowercase a ≠ byteLowercase b := by
  simp [nameMatches]

theorem nameMatches_lower_left (a b : String) :
    nameMatches (byteLowercase a) b = nameMatches a b := by
  simp [nameMatches, byteLowercase_idem]

theorem nameMatches_lower_right (a b : String) :
    nameMatches a (byteLowercase b) = nameMatches a b := by
  simp [nameMatches, byteLowercase_idem]

theorem nameMatches_congr_right {a b : String} (h : nameMatches a b = true) (x : String) :
    nameMatches x a = nameMatches x b := by
  rw [nameMatches_iff] at h
  simp [nameMatches, h]

theorem normalizeValue_idem (v : String) :
    normalizeValue (normalizeValue v) = normalizeValue v := by
  unfold normalizeValue
  simp only
  congr 1
  have h1 : List.dropWhile isHTTPWhitespace
        (List.rdropWhile isHTTPWhitespace (List.dropWhile isHTTPWhitespace v.data))
      = List.rdropWhile isHTTPWhitespace (List.dropWhile isHTTPWhitespace v.data) := by
    rw [List.dropWhile_eq_self_iff]
    intro hl
    have hne : List.rdropWhile isHTTPWhitespace (List.dropWhile isHTTPWhitespace v.data) ≠ [] :=
      List.ne_nil_of_length_pos hl
    have hpre := List.rdropWhile_prefix isHTTPWhitespace
      (List.dropWhile isHTTPWhitespace v.data)
    have hne2 : List.dropWhile isHTTPWhitespace v.data ≠ [] := by
      intro h0
      rw [h0] at hne
      exact hne (by simp [List.rdropWhile])
    have hh := hpre.head hne
    have hd := List.head_dropWhile_not isHTTPWhitespace v.data hne2
    have hg : (List.rdropWhile isHTTPWhitespace
        (List.dropWhile isHTTPWhitespace v.data))[0] =
        (List.dropWhile isHTTPWhitespace v.data).head hne2 := by
      rw [← hh]
      exact (List.head_eq_getElem _ hne).symm
    show ¬ isHTTPWhitespace (List.rdropWhile isHTTPWhitespace
        (List.dropWhile isHTTPWhitespace v.data))[0] = true
    rw [hg, hd]
    simp
  rw [h1, List.rdropWhile_idempotent]

/-- The headers of a list whose name matches `name`. -/
theorem HeaderList.contains_iff_filter (list : HeaderList) (name : String) :
    list.contains name = true ↔ (list.filter fun h => nameMatches h.1 name) ≠ [] := by
  unfold HeaderList.contains
  rw [List.any_eq_true, Ne, List.filter_eq_nil_iff]
  constructor
  · rintro ⟨x, hx, hm⟩ h
    exact h x hx hm
  · intro h
    by_contra hc
    apply h
    intro a ha hm
    exact hc ⟨a, ha, hm⟩

theorem HeaderList.get_congr {l₁ l₂ : HeaderList} {n₁ n₂ : String}
    (h : (l₁.filter fun h => nameMatches h.1 n₁) = l₂.filter fun h => nameMatches h.1 n₂) :
    l₁.get n₁ = l₂.get n₂ := by
  have hc : l₁.contains n₁ = l₂.contains n₂ := by
    rw [Bool.eq_iff_iff, HeaderList.contains_iff_filter, HeaderList.contains_iff_filter, h]
  unfold HeaderList.get HeaderList.values
  rw [hc, h]

theorem HeaderList.get_of_filter_nil {l : HeaderList} {n : String}
    (h : (l.filter fun h => nameMatches h.1 n) = []) : l.get n = none := by
  have hc : l.contains n = false := by
    rw [← Bool.not_eq_true, HeaderList.contains_iff_filter]
    simp [h]
  simp [HeaderList.get, hc]

theorem HeaderList.get_of_filter_single {l : HeaderList} {n k v : String}
    (h : (l.filter fun h => nameMatches h.1 n) = [(k, v)]) : l.get n = some v := by
  have hc : l.contains n = true := by
    rw [HeaderList.contains_iff_filter]
    simp [h]
  unfold HeaderList.get HeaderList.values
  rw [hc, h]
  rfl

theorem HeaderList.get_lower (l : HeaderList) (n : String) :
    l.get (byteLowercase n) = l.get n := by
  apply HeaderList.get_congr
  simp [nameMatches_lower_right]

theorem HeaderList.filter_set_same (l : HeaderList) (n v m : String)
    (hm : nameMatches m n = true) :
    ∃ k, ((l.set n v).filter fun h => nameMatches h.1 m) = [(k, v)] := by
  have hmn : ∀ x, nameMatches x m = nameMatches x n := nameMatches_congr_right hm
  induction l with
  | nil =>
    refine ⟨n, ?_⟩
    have : nameMatches n m = true := by
      rw [nameMatches_iff] at hm ⊢
      exact hm.symm
    simp [HeaderList.set, this]
  | cons h t ih =>
    unfold HeaderList.set
    by_cases hh : nameMatches h.1 n = true
    · refine ⟨h.1, ?_⟩
      rw [if_pos hh]
      simp only [List.filter_cons, hmn, hh, if_true, List.filter_filter]
      congr 1
      rw [List.filter_eq_nil_iff]
      intro a _
      cases nameMatches a.1 n <;> simp
    · obtain ⟨k, hk⟩ := ih
      refine ⟨k, ?_⟩
      rw [if_neg hh]
      rw [List.filter_cons, hmn, if_neg hh]
      exact hk

theorem HeaderList.filter_set_other (l : HeaderList) (n v m : String)
    (hm : nameMatches m n = false) :
    ((l.set n v).filter fun h => nameMatches h.1 m) = l.filter fun h => nameMatches h.1 m := by
  have key : ∀ x : String, nameMatches x n = true → nameMatches x m = false := by
    intro x hx
    rw [nameMatches_iff] at hx
    rw [nameMatches_eq_false_iff] at hm ⊢
    intro h
    exact hm (h.symm.trans hx)
  induction l with
  | nil =>
    simp [HeaderList.set, key n (by simp [nameMatches])]
  | cons h t ih =>
    unfold HeaderList.set
    by_cases hh : nameMatches h.1 n = true
    · rw [if_pos hh]
      simp only [List.filter_cons, key h.1 hh, List.filter_filter]
      simp only [Bool.false_eq_true, if_false]
      apply List.filter_congr
      intro a _
      by_cases ha : nameMatches a.1 n = true
      · simp [ha, key a.1 ha]
      · simp [ha]
    · rw [if_neg hh]
      simp only [List.filter_cons, ih]

theorem HeaderList.get_set_same (l : HeaderList) (n v m : String)
    (hm : nameMatches m n = true) : (l.set n v).get m = some v := by
  obtain ⟨k, hk⟩ := HeaderList.filter_set_same l n v m hm
  exact HeaderList.get_of_filter_single hk

theorem HeaderList.get_set_other (l : HeaderList) (n v m : String)
    (hm : nameMatches m n = false) : (l.set n v).get m = l.get m :=
  HeaderList.get_congr (HeaderList.filter_set_other l n v m hm)

theorem HeaderList.append_of_lower (acc : HeaderList) (n v : String)
    (hacc : ∀ h ∈ acc, byteLowercase h.1 = h.1) (hn : byteLowercase n = n) :
    acc.append n v = acc ++ [(n, v)] := by
  unfold HeaderList.append
  split
  · rename_i h hfind
    have hmem := List.mem_of_find?_eq_some hfind
    have hp := List.find?_some hfind
    simp only [nameMatches_iff] at hp
    rw [hacc h hmem, hn] at hp
    rw [hp]
  · rfl

theorem Headers.foldl_append_of_lower (guard : HeadersGuard) (pairs acc : HeaderList)
    (hacc : ∀ h ∈ acc, byteLowercase h.1 = h.1)
    (hpairs : ∀ h ∈ pairs, byteLowercase h.1 = h.1) :
    pairs.foldl (fun acc h => Headers.append guard acc h.1 h.2) acc
      = acc ++ pairs.filterMap (keptPair guard) := by
  induction pairs generalizing acc with
  | nil => simp
  | cons p t ih =>
    have hp : byteLowercase p.1 = p.1 := hpairs p (List.mem_cons_self _ _)
    have ht : ∀ h ∈ t, byteLowercase h.1 = h.1 := fun h hh => hpairs h (List.mem_cons_of_mem _ hh)
    rw [List.foldl_cons]
    by_cases hg : guard = HeadersGuard.response ∧ isForbiddenResponseHeaderName p.1
    · have h1 : Headers.append guard acc p.1 p.2 = acc := by
        unfold Headers.append
        rw [if_pos hg]
      have h2 : keptPair guard p = none := by
        unfold keptPair
        rw [if_pos hg]
      rw [h1, ih acc hacc ht, List.filterMap_cons, h2]
    · have h1 : Headers.append guard acc p.1 p.2 = acc ++ [(p.1, normalizeValue p.2)] := by
        unfold Headers.append
        rw [if_neg hg]
        exact HeaderList.append_of_lower acc p.1 _ hacc hp
      have h2 : keptPair guard p = some (p.1, normalizeValue p.2) := by
        unfold keptPair
        rw [if_neg hg]
      have hacc2 : ∀ h ∈ acc ++ [(p.1, normalizeValue p.2)], byteLowercase h.1 = h.1 := by
        intro h hh
        rw [List.mem_append] at hh
        rcases hh with hh | hh
        · exact hacc h hh
        · rw [List.mem_singleton] at hh
          rw [hh]
          exact hp
      rw [h1, ih _ hacc2 ht, List.filterMap_cons, h2, List.append_assoc]
      rfl

theorem mem_sortedLowercaseSet (names : List String) (k : String) :
    k ∈ sortedLowercaseSet names ↔ ∃ n ∈ names, byteLowercase n = k := by
  unfold sortedLowercaseSet
  rw [(List.perm_insertionSort _ _).mem_iff, List.mem_dedup, List.mem_map]

theorem nodup_sortedLowercaseSet (names : List String) : (sortedLowercaseSet names).Nodup := by
  unfold sortedLowercaseSet
  rw [(List.perm_insertionSort _ _).nodup_iff]
  exact List.nodup_dedup _

theorem lower_of_mem_sortedLowercaseSet {names : List String} {k : String}
    (h : k ∈ sortedLowercaseSet names) : byteLowercase k = k := by
  rw [mem_sortedLowercaseSet] at h
  obtain ⟨n, _, rfl⟩ := h
  exact byteLowercase_idem n

theorem HeaderList.sortAndCombine_eq (list : HeaderList) :
    list.sortAndCombine = (sortedLowercaseSet (list.map Prod.fst)).flatMap (combinedFor list) :=
  rfl

theorem fst_of_mem_combinedFor {list : HeaderList} {name : String} {h : Header}
    (hh : h ∈ combinedFor list name) : h.1 = name := by
  unfold combinedFor at hh
  split at hh
  · rw [List.mem_map] at hh
    obtain ⟨v, _, rfl⟩ := hh
    rfl
  · split at hh
    · rw [List.mem_singleton] at hh
      rw [hh]
    · simp at hh

theorem filter_flatMap_nodup (list : HeaderList) (names : List String) (k : String)
    (hnd : names.Nodup) (hlow : ∀ n ∈ names, byteLowercase n = n) (hk : byteLowercase k = k) :
    ((names.flatMap (combinedFor list)).filter fun h => nameMatches h.1 k)
      = if k ∈ names then combinedFor list k else [] := by
  induction names with
  | nil => simp
  | cons a t ih =>
    rw [List.nodup_cons] at hnd
    have ha : byteLowercase a = a := hlow a (List.mem_cons_self _ _)
    have ht : ∀ n ∈ t, byteLowercase n = n := fun n hn => hlow n (List.mem_cons_of_mem _ hn)
    rw [List.flatMap_cons, List.filter_append, ih hnd.2 ht]
    by_cases hak : a = k
    · subst hak
      have h1 : ((combinedFor list a).filter fun h => nameMatches h.1 a) = combinedFor list a := by
        rw [List.filter_eq_self]
        intro h hh
        rw [fst_of_mem_combinedFor hh]
        simp [nameMatches]
      rw [h1, if_neg hnd.1, if_pos (List.mem_cons_self _ _), List.append_nil]
    · have h1 : ((combinedFor list a).filter fun h => nameMatches h.1 k) = [] := by
        rw [List.filter_eq_nil_iff]
        intro h hh
        rw [fst_of_mem_combinedFor hh, nameMatches_iff, ha, hk]
        exact hak
      rw [h1, List.nil_append]
      have : k ∈ a :: t ↔ k ∈ t := by
        rw [List.mem_cons]
        constructor
        · rintro (h | h)
          · exact absurd h.symm hak
          · exact h
        · exact Or.inr
      simp only [this]

theorem HeaderList.filter_sortAndCombine (list : HeaderList) (n : String) :
    (list.sortAndCombine.filter fun h => nameMatches h.1 n)
      = combinedFor list (byteLowercase n) := by
  have hf : (list.sortAndCombine.filter fun h => nameMatches h.1 n)
      = list.sortAndCombine.filter fun h => nameMatches h.1 (byteLowercase n) := by
    simp [nameMatches_lower_right]
  rw [hf, HeaderList.sortAndCombine_eq,
    filter_flatMap_nodup list _ _ (nodup_sortedLowercaseSet _)
      (fun n hn => lower_of_mem_sortedLowercaseSet hn) (byteLowercase_idem n)]
  split
  · rfl
  · rename_i hnot
    rw [mem_sortedLowercaseSet] at hnot
    have hnil : (list.filter fun h => nameMatches h.1 (byteLowercase n)) = [] := by
      rw [List.filter_eq_nil_iff]
      intro a ha hm
      apply hnot
      rw [nameMatches_iff, byteLowercase_idem] at hm
      exact ⟨a.1, List.mem_map_of_mem _ ha, hm⟩
    unfold combinedFor
    split
    · simp [HeaderList.values, hnil]
    · rw [HeaderList.get_of_filter_nil hnil]

theorem lower_of_mem_sortAndCombine {list : HeaderList} {h : Header}
    (hh : h ∈ list.sortAndCombine) : byteLowercase h.1 = h.1 := by
  rw [HeaderList.sortAndCombine_eq, List.mem_flatMap] at hh
  obtain ⟨name, hname, hmem⟩ := hh
  rw [fst_of_mem_combinedFor hmem]
  exact lower_of_mem_sortedLowercaseSet hname

theorem Headers.fill_nil (guard : HeadersGuard) (init : HeaderList) :
    Headers.fill guard [] init = init.sortAndCombine.filterMap (keptPair guard) := by
  unfold Headers.fill
  rw [Headers.foldl_append_of_lower guard _ [] (by simp)
    (fun h hh => lower_of_mem_sortAndCombine hh)]
  rfl

theorem filter_filterMap_keptPair (guard : HeadersGuard) (l : HeaderList) (n : String) :
    ((l.filterMap (keptPair guard)).filter fun h => nameMatches h.1 n)
      = (l.filter fun h => nameMatches h.1 n).filterMap (keptPair guard) := by
  induction l with
  | nil => rfl
  | cons a t ih =>
    by_cases hg : guard = HeadersGuard.response ∧ isForbiddenResponseHeaderName a.1
    · have h2 : keptPair guard a = none := by
        unfold keptPair
        rw [if_pos hg]
      by_cases hm : nameMatches a.1 n = true
      · rw [List.filterMap_cons, h2, List.filter_cons, if_pos hm, List.filterMap_cons, h2]
        exact ih
      · rw [List.filterMap_cons, h2, List.filter_cons, if_neg hm]
        exact ih
    · have h2 : keptPair guard a = some (a.1, normalizeValue a.2) := by
        unfold keptPair
        rw [if_neg hg]
      by_cases hm : nameMatches a.1 n = true
      · rw [List.filterMap_cons, h2, List.filter_cons, if_pos hm, List.filter_cons, if_pos hm,
          List.filterMap_cons, h2, ih]
      · rw [List.filterMap_cons, h2, List.filter_cons, if_neg hm, List.filter_cons, if_neg hm,
          ih]

theorem Headers.filter_fill_nil (guard : HeadersGuard) (init : HeaderList) (n : String) :
    ((Headers.fill guard [] init).filter fun h => nameMatches h.1 n)
      = (combinedFor init (byteLowercase n)).filterMap (keptPair guard) := by
  rw [Headers.fill_nil, filter_filterMap_keptPair, HeaderList.filter_sortAndCombine]

/-- Reading a name from a freshly filled guard-"none" object (`new Headers(init)`). -/
theorem Headers.get_new (init : HeaderList) (n : String)
    (hn : nameMatches n "set-cookie" = false) :
    (Headers.new init).get n = (init.get n).map normalizeValue := by
  have hne : byteLowercase n ≠ "set-cookie" := by
    rw [nameMatches_eq_false_iff] at hn
    exact hn
  have hf := Headers.filter_fill_nil HeadersGuard.none init n
  unfold combinedFor at hf
  rw [if_neg hne, HeaderList.get_lower] at hf
  unfold Headers.new
  cases hget : init.get n with
  | none =>
    rw [hget] at hf
    exact HeaderList.get_of_filter_nil hf
  | some v =>
    rw [hget] at hf
    have hk : keptPair HeadersGuard.none (byteLowercase n, v)
        = some (byteLowercase n, normalizeValue v) := by
      simp [keptPair]
    rw [List.filterMap_cons, hk] at hf
    exact HeaderList.get_of_filter_single hf

/-- Reading a name from the headers that `new Response` fills from a `Headers` object. -/
theorem Headers.get_fill_response (init : HeaderList) (n : String)
    (hn : isForbiddenResponseHeaderName n = false) :
    (Headers.fill HeadersGuard.response [] init).get n = (init.get n).map normalizeValue := by
  have hn1 : nameMatches n "set-cookie" = false := by
    unfold isForbiddenResponseHeaderName at hn
    rw [Bool.or_eq_false_iff] at hn
    exact hn.1
  have hne : byteLowercase n ≠ "set-cookie" := by
    rw [nameMatches_eq_false_iff] at hn1
    exact hn1
  have hforb : isForbiddenResponseHeaderName (byteLowercase n) = false := by
    unfold isForbiddenResponseHeaderName at hn ⊢
    rw [nameMatches_lower_left, nameMatches_lower_left]
    exact hn
  have hf := Headers.filter_fill_nil HeadersGuard.response init n
  unfold combinedFor at hf
  rw [if_neg hne, HeaderList.get_lower] at hf
  cases hget : init.get n with
  | none =>
    rw [hget] at hf
    exact HeaderList.get_of_filter_nil hf
  | some v =>
    rw [hget] at hf
    have hk : keptPair HeadersGuard.response (byteLowercase n, v)
        = some (byteLowercase n, normalizeValue v) := by
      simp [keptPair, hforb]
    rw [List.filterMap_cons, hk] at hf
    exact HeaderList.get_of_filter_single hf

/-! ## The `fetch` listener -/

/-- The header list that the listener hands to `new Response`. -/
theorem fetchListener_of_ok (fetch : Request → Except JSError Response) (request : Request)
    (response : Response)
    (hA : ¬ (request.cache = "only-if-cached" ∧ request.mode ≠ "same-origin"))
    (hB : startsWith request.url "chrome-extension://" = false)
    (hfetch : fetch request = Except.ok response) :
    (fetchListener fetch request).respondWith =
      some (Response.new response.body response.status response.statusText
        (((Headers.new response.headers).set "Cross-Origin-Opener-Policy"
            (normalizeValue "same-origin")).set "Cross-Origin-Embedder-Policy"
            (normalizeValue "require-corp"))) := by
  unfold fetchListener
  rw [if_neg hA, hB, if_neg Bool.false_ne_true, hfetch]
  rfl

theorem Response.new_of_accepted (body : Body) (status : Nat) (statusText : String)
    (headers : HeaderList) (hstatus : 200 ≤ status ∧ status ≤ 599)
    (htext : isReasonPhrase statusText = true)
    (hbody : body.isSome = true → isNullBodyStatus status = false) :
    Response.new body status statusText headers =
      Except.ok
        { status := status
          statusText := statusText
          headers := Headers.fill HeadersGuard.response [] headers
          body := body } := by
  unfold Response.new
  rw [if_neg (not_not.mpr hstatus), if_neg (by simp [htext]), if_neg]
  rintro ⟨h1, h2⟩
  rw [hbody h1] at h2
  exact Bool.false_ne_true h2

theorem isolationHeaders_get (original : HeaderList) :
    let sent := Headers.fill HeadersGuard.response []
      (((Headers.new original).set "Cross-Origin-Opener-Policy"
        (normalizeValue "same-origin")).set "Cross-Origin-Embedder-Policy"
        (normalizeValue "require-corp"))
    sent.get "Cross-Origin-Opener-Policy" = some "same-origin" ∧
    sent.get "Cross-Origin-Embedder-Policy" = some "require-corp" ∧
    ∀ name, nameMatches name "Cross-Origin-Opener-Policy" = false →
      nameMatches name "Cross-Origin-Embedder-Policy" = false →
      isForbiddenResponseHeaderName name = false →
      sent.get name = (original.get name).map normalizeValue := by
  intro sent
  refine ⟨?_, ?_, ?_⟩
  · show (Headers.fill HeadersGuard.response [] _).get _ = _
    rw [Headers.get_fill_response _ _ (by decide),
      HeaderList.get_set_other _ _ _ _ (by decide),
      HeaderList.get_set_same _ _ _ _ (by decide)]
    decide
  · show (Headers.fill HeadersGuard.response [] _).get _ = _
    rw [Headers.get_fill_response _ _ (by decide),
      HeaderList.get_set_same _ _ _ _ (by decide)]
    decide
  · intro name h1 h2 h3
    have hsc : nameMatches name "set-cookie" = false := by
      unfold isForbiddenResponseHeaderName at h3
      rw [Bool.or_eq_false_iff] at h3
      exact h3.1
    show (Headers.fill HeadersGuard.response [] _).get _ = _
    rw [Headers.get_fill_response _ _ h3, HeaderList.get_set_other _ _ _ _ h2,
      HeaderList.get_set_other _ _ _ _ h1, Headers.get_new _ _ hsc, Option.map_map]
    congr 1
    funext v
    exact normalizeValue_idem v

/-! ## The page script: lemmas -/

theorem Storage.withItem_cons (kv : String × String) (rest : Storage) (key value : String) :
    Storage.withItem (kv :: rest) key value =
      if kv.1 = key then (key, value) :: rest else kv :: Storage.withItem rest key value :=
  rfl

theorem dispatch_updatefound (page : Page) (installing : Option Nat) :
    dispatch page (Event.updatefound installing) =
      if page.observing then updatefoundListener page installing else page :=
  rfl

theorem dispatch_statechange (page : Page) (worker : Nat) (state : String) :
    dispatch page (Event.statechange worker state) =
      (page.watched.filter fun w => w = worker).foldl
        (fun p _ => statechangeListener p state) page :=
  rfl

theorem Storage.withItem_idem (storage : Storage) (key value : String) :
    (storage.withItem key value).withItem key value = storage.withItem key value := by
  induction storage with
  | nil => simp [Storage.withItem]
  | cons kv rest ih =>
    rw [Storage.withItem_cons]
    by_cases h : kv.1 = key
    · rw [if_pos h, Storage.withItem_cons, if_pos rfl]
    · rw [if_neg h, Storage.withItem_cons, if_neg h, ih]

theorem Storage.getItem_withItem_same (storage : Storage) (key value : String) :
    (storage.withItem key value).getItem key = some value := by
  induction storage with
  | nil => simp [Storage.withItem, Storage.getItem]
  | cons kv rest ih =>
    rw [Storage.withItem_cons]
    by_cases h : kv.1 = key
    · rw [if_pos h]
      simp [Storage.getItem]
    · rw [if_neg h]
      unfold Storage.getItem at ih ⊢
      rw [List.find?_cons_of_neg _ (by simpa using h)]
      exact ih

theorem Storage.setItem_of_fits (storage : Storage) (quota : Nat) (key value : String)
    (hfits : (storage.withItem key value).size ≤ quota) :
    storage.setItem quota key value = Except.ok (storage.withItem key value) := by
  unfold Storage.setItem
  rw [if_pos hfits]

theorem Storage.setItem_of_full (storage : Storage) (quota : Nat) (key value : String)
    (hfull : ¬ (storage.withItem key value).size ≤ quota) :
    storage.setItem quota key value = Except.error quotaExceededError := by
  unfold Storage.setItem
  rw [if_neg hfull]

theorem markAndReload_succ (n : Nat) :
    markAndReload (n + 1)
      = [Effect.setItem "coi-reloaded" "1" none, Effect.reload] ++ markAndReload n := by
  unfold markAndReload
  rw [List.replicate_succ, List.flatten_cons]

theorem reloadCount_append (t₁ t₂ : List Effect) :
    reloadCount (t₁ ++ t₂) = reloadCount t₁ + reloadCount t₂ := by
  unfold reloadCount
  exact List.count_append _ _ _

theorem reloadCount_markAndReload (n : Nat) : reloadCount (markAndReload n) = n := by
  induction n with
  | zero => rfl
  | succ n ih =>
    rw [markAndReload_succ, reloadCount_append, ih]
    have : reloadCount [Effect.setItem "coi-reloaded" "1" none, Effect.reload] = 1 := by decide
    omega

theorem reloadCount_replicate_refused (n : Nat) (e : JSError) :
    reloadCount (List.replicate n (Effect.setItem "coi-reloaded" "1" (some e))) = 0 := by
  unfold reloadCount
  rw [List.count_eq_zero]
  intro h
  have := List.eq_of_mem_replicate h
  cases this

theorem statechangeListener_settled_fits (page : Page) (state : String)
    (hs : state = "activated" ∨ state = "redundant")
    (hfits : (page.storage.withItem "coi-reloaded" "1").size ≤ page.quota) :
    statechangeListener page state =
      { page with
        storage := page.storage.withItem "coi-reloaded" "1"
        trace := page.trace ++ [Effect.setItem "coi-reloaded" "1" none, Effect.reload] } := by
  unfold statechangeListener
  rw [if_pos hs, Storage.setItem_of_fits _ _ _ _ hfits]

theorem statechangeListener_settled_full (page : Page) (state : String)
    (hs : state = "activated" ∨ state = "redundant")
    (hfull : ¬ (page.storage.withItem "coi-reloaded" "1").size ≤ page.quota) :
    statechangeListener page state =
      { page with
        trace := page.trace ++ [Effect.setItem "coi-reloaded" "1" (some quotaExceededError)] } := by
  unfold statechangeListener
  rw [if_pos hs, Storage.setItem_of_full _ _ _ _ hfull]

/-- A settled worker with `k` listeners whose write is taken: the listeners run one
after the other. -/
theorem foldl_statechangeListener_settled (state : String)
    (hs : state = "activated" ∨ state = "redundant") (ws : List Nat) (page : Page)
    (hfits : (page.storage.withItem "coi-reloaded" "1").size ≤ page.quota) :
    ws.foldl (fun p _ => statechangeListener p state) page =
      { page with
        storage := if ws = [] then page.storage else page.storage.withItem "coi-reloaded" "1"
        trace := page.trace ++ markAndReload ws.length } := by
  induction ws generalizing page with
  | nil => simp [markAndReload]
  | cons w t ih =>
    rw [List.foldl_cons, statechangeListener_settled_fits page state hs hfits, ih]
    · rw [List.length_cons, markAndReload_succ]
      simp only [List.append_assoc, Storage.withItem_idem]
      simp
    · show ((page.storage.withItem "coi-reloaded" "1").withItem "coi-reloaded" "1").size
        ≤ page.quota
      rw [Storage.withItem_idem]
      exact hfits

/-- A settled worker with `k` listeners whose write is refused: every listener stops at
the write. -/
theorem foldl_statechangeListener_refused (state : String)
    (hs : state = "activated" ∨ state = "redundant") (ws : List Nat) (page : Page)
    (hfull : ¬ (page.storage.withItem "coi-reloaded" "1").size ≤ page.quota) :
    ws.foldl (fun p _ => statechangeListener p state) page =
      { page with
        trace := page.trace ++
          List.replicate ws.length (Effect.setItem "coi-reloaded" "1" (some quotaExceededError)) } := by
  induction ws generalizing page with
  | nil => simp
  | cons w t ih =>
    rw [List.foldl_cons, statechangeListener_settled_full page state hs hfull, ih]
    · rw [List.length_cons, List.replicate_succ]
      simp
    · exact hfull

theorem foldl_statechangeListener_other (state : String)
    (hs : ¬ (state = "activated" ∨ state = "redundant")) (ws : List Nat) (page : Page) :
    ws.foldl (fun p _ => statechangeListener p state) page = page := by
  induction ws generalizing page with
  | nil => rfl
  | cons w t ih =>
    rw [List.foldl_cons]
    have h1 : statechangeListener page state = page := by
      unfold statechangeListener
      rw [if_neg hs]
    rw [h1, ih]

theorem length_filter_eq_count (watched : List Nat) (worker : Nat) :
    (watched.filter fun w => w = worker).length = watched.count worker := by
  rw [List.count, List.countP_eq_length_filter]
  congr 1

/-- The effect of a `statechange` event that reports a settled worker, the write being
taken. -/
theorem dispatch_statechange_settled (page : Page) (worker : Nat) (state : String)
    (hs : state = "activated" ∨ state = "redundant")
    (hfits : (page.storage.withItem "coi-reloaded" "1").size ≤ page.quota) :
    dispatch page (Event.statechange worker state) =
      { page with
        storage :=
          if page.watched.count worker = 0 then page.storage
          else page.storage.withItem "coi-reloaded" "1"
        trace := page.trace ++ markAndReload (page.watched.count worker) } := by
  rw [dispatch_statechange, foldl_statechangeListener_settled state hs _ _ hfits]
  have hlen := length_filter_eq_count page.watched worker
  have hnil : (page.watched.filter fun w => w = worker) = [] ↔ page.watched.count worker = 0 := by
    rw [← hlen, List.length_eq_zero]
  rw [hlen]
  by_cases h0 : page.watched.count worker = 0
  · rw [if_pos (hnil.mpr h0), if_pos h0]
  · rw [if_neg (fun h => h0 (hnil.mp h)), if_neg h0]

/-- The effect of a `statechange` event that reports a settled worker, the write being
refused. -/
theorem dispatch_statechange_refused (page : Page) (worker : Nat) (state : String)
    (hs : state = "activated" ∨ state = "redundant")
    (hfull : ¬ (page.storage.withItem "coi-reloaded" "1").size ≤ page.quota) :
    dispatch page (Event.statechange worker state) =
      { page with
        trace := page.trace ++
          List.replicate (page.watched.count worker)
            (Effect.setItem "coi-reloaded" "1" (some quotaExceededError)) } := by
  rw [dispatch_statechange, foldl_statechangeListener_refused state hs _ _ hfull,
    length_filter_eq_count]

theorem dispatch_statechange_other (page : Page) (worker : Nat) (state : String)
    (hs : ¬ (state = "activated" ∨ state = "redundant")) :
    dispatch page (Event.statechange worker state) = page := by
  rw [dispatch_statechange, foldl_statechangeListener_other state hs]

theorem dispatch_observing (page : Page) (e : Event) :
    (dispatch page e).observing = page.observing := by
  cases e with
  | updatefound installing =>
    rw [dispatch_updatefound]
    split
    · cases installing <;> rfl
    · rfl
  | statechange worker state =>
    by_cases hs : state = "activated" ∨ state = "redundant"
    · by_cases hfits : (page.storage.withItem "coi-reloaded" "1").size ≤ page.quota
      · rw [dispatch_statechange_settled page worker state hs hfits]
      · rw [dispatch_statechange_refused page worker state hs hfits]
    · rw [dispatch_statechange_other page worker state hs]

theorem dispatch_quota (page : Page) (e : Event) :
    (dispatch page e).quota = page.quota := by
  cases e with
  | updatefound installing =>
    rw [dispatch_updatefound]
    split
    · cases installing <;> rfl
    · rfl
  | statechange worker state =>
    by_cases hs : state = "activated" ∨ state = "redundant"
    · by_cases hfits : (page.storage.withItem "coi-reloaded" "1").size ≤ page.quota
      · rw [dispatch_statechange_settled page worker state hs hfits]
      · rw [dispatch_statechange_refused page worker state hs hfits]
    · rw [dispatch_statechange_other page worker state hs]

theorem dispatch_watched (page : Page) (e : Event) :
    (dispatch page e).watched =
      page.watched ++ (if page.observing then installingWorkers [e] else []) := by
  cases e with
  | updatefound installing =>
    rw [dispatch_updatefound]
    split
    · cases installing <;> simp [updatefoundListener, installingWorkers]
    · simp
  | statechange worker state =>
    have : installingWorkers [Event.statechange worker state] = [] := rfl
    rw [this]
    by_cases hs : state = "activated" ∨ state = "redundant"
    · by_cases hfits : (page.storage.withItem "coi-reloaded" "1").size ≤ page.quota
      · rw [dispatch_statechange_settled page worker state hs hfits]
        simp
      · rw [dispatch_statechange_refused page worker state hs hfits]
        simp
    · rw [dispatch_statechange_other page worker state hs]
      simp

theorem installingWorkers_append (l₁ l₂ : List Event) :
    installingWorkers (l₁ ++ l₂) = installingWorkers l₁ ++ installingWorkers l₂ := by
  unfold installingWorkers
  exact List.filterMap_append _ _ _

theorem run_append (page : Page) (l₁ l₂ : List Event) :
    run page (l₁ ++ l₂) = run (run page l₁) l₂ := by
  unfold run
  exact List.foldl_append _ _ _ _

theorem run_observing (page : Page) (events : List Event) :
    (run page events).observing = page.observing := by
  induction events generalizing page with
  | nil => rfl
  | cons e t ih =>
    show (run (dispatch page e) t).observing = _
    rw [ih, dispatch_observing]

theorem run_quota (page : Page) (events : List Event) :
    (run page events).quota = page.quota := by
  induction events generalizing page with
  | nil => rfl
  | cons e t ih =>
    show (run (dispatch page e) t).quota = _
    rw [ih, dispatch_quota]

theorem run_watched (page : Page) (events : List Event) :
    (run page events).watched =
      page.watched ++ (if page.observing then installingWorkers events else []) := by
  induction events generalizing page with
  | nil => cases page.observing <;> simp [run, installingWorkers]
  | cons e t ih =>
    show (run (dispatch page e) t).watched = _
    rw [ih, dispatch_watched, dispatch_observing]
    have : installingWorkers (e :: t) = installingWorkers [e] ++ installingWorkers t :=
      installingWorkers_append [e] t
    rw [this]
    cases page.observing <;> simp

/-- A page that carries no listener is left as it is by every event. -/
theorem run_of_idle (page : Page) (hobs : page.observing = false) (hw : page.watched = [])
    (events : List Event) : run page events = page := by
  induction events with
  | nil => rfl
  | cons e t ih =>
    show run (dispatch page e) t = page
    have : dispatch page e = page := by
      cases e with
      | updatefound installing =>
        rw [dispatch_updatefound, hobs]
        rfl
      | statechange worker state =>
        rw [dispatch_statechange, hw]
        rfl
    rw [this, ih]

theorem reloadCount_dispatch_le (page : Page) (e : Event) (hnd : page.watched.Nodup) :
    reloadCount (dispatch page e).trace ≤ reloadCount page.trace + 1 := by
  cases e with
  | updatefound installing =>
    rw [dispatch_updatefound]
    split
    · cases installing with
      | none => exact Nat.le_succ _
      | some w =>
        show reloadCount (page.trace ++ [Effect.addStatechangeListener w]) ≤ _
        rw [reloadCount_append]
        have : reloadCount [Effect.addStatechangeListener w] = 0 := by
          simp [reloadCount]
        omega
    · exact Nat.le_succ _
  | statechange worker state =>
    by_cases hs : state = "activated" ∨ state = "redundant"
    · by_cases hfits : (page.storage.withItem "coi-reloaded" "1").size ≤ page.quota
      · rw [dispatch_statechange_settled page worker state hs hfits]
        show reloadCount (page.trace ++ markAndReload _) ≤ _
        rw [reloadCount_append, reloadCount_markAndReload]
        have := List.nodup_iff_count_le_one.mp hnd worker
        omega
      · rw [dispatch_statechange_refused page worker state hs hfits]
        show reloadCount (page.trace ++ List.replicate _ _) ≤ _
        rw [reloadCount_append, reloadCount_replicate_refused]
        omega
    · rw [dispatch_statechange_other page worker state hs]
      exact Nat.le_succ _

/-! ### Shape of the trace -/

theorem orderly_append_other (t : List Effect) (e : Effect) (he : e ≠ Effect.reload)
    (hc : List.Chain' (fun a b => b = Effect.reload → a = Effect.setItem "coi-reloaded" "1" none) t)
    (hh : t.head? ≠ some Effect.reload) :
    List.Chain' (fun a b => b = Effect.reload → a = Effect.setItem "coi-reloaded" "1" none)
        (t ++ [e]) ∧
      (t ++ [e]).head? ≠ some Effect.reload := by
  constructor
  · rw [List.chain'_append]
    refine ⟨hc, List.chain'_singleton _, ?_⟩
    intro x _ y hy hy2
    simp only [List.head?_cons, Option.mem_def, Option.some.injEq] at hy
    rw [← hy] at hy2
    exact absurd hy2 he
  · cases t with
    | nil =>
      simp only [List.nil_append, List.head?_cons, ne_eq, Option.some.injEq]
      exact he
    | cons a t => exact hh

theorem orderly_append_pair (t : List Effect)
    (hc : List.Chain' (fun a b => b = Effect.reload → a = Effect.setItem "coi-reloaded" "1" none) t)
    (hh : t.head? ≠ some Effect.reload) :
    List.Chain' (fun a b => b = Effect.reload → a = Effect.setItem "coi-reloaded" "1" none)
        (t ++ [Effect.setItem "coi-reloaded" "1" none, Effect.reload]) ∧
      (t ++ [Effect.setItem "coi-reloaded" "1" none, Effect.reload]).head? ≠ some Effect.reload := by
  constructor
  · rw [List.chain'_append]
    refine ⟨hc, ?_, ?_⟩
    · simp [List.Chain']
    · intro x _ y hy hy2
      simp only [List.head?_cons, Option.mem_def, Option.some.injEq] at hy
      rw [← hy] at hy2
      exact absurd hy2 (by decide)
  · cases t with
    | nil => simp
    | cons a t => exact hh

theorem orderly_append_markAndReload (n : Nat) (t : List Effect)
    (hc : List.Chain' (fun a b => b = Effect.reload → a = Effect.setItem "coi-reloaded" "1" none) t)
    (hh : t.head? ≠ some Effect.reload) :
    List.Chain' (fun a b => b = Effect.reload → a = Effect.setItem "coi-reloaded" "1" none)
        (t ++ markAndReload n) ∧
      (t ++ markAndReload n).head? ≠ some Effect.reload := by
  induction n generalizing t with
  | zero =>
    have : markAndReload 0 = [] := rfl
    rw [this, List.append_nil]
    exact ⟨hc, hh⟩
  | succ n ih =>
    rw [markAndReload_succ, ← List.append_assoc]
    obtain ⟨h1, h2⟩ := orderly_append_pair t hc hh
    exact ih _ h1 h2

theorem mem_markAndReload (n : Nat) (e : Effect) (he : e ∈ markAndReload n) :
    e = Effect.setItem "coi-reloaded" "1" none ∨ e = Effect.reload := by
  induction n with
  | zero => simp [markAndReload] at he
  | succ n ih =>
    rw [markAndReload_succ, List.mem_append] at he
    rcases he with he | he
    · simpa using he
    · exact ih he

theorem orderly_append_replicate (n : Nat) (e : Effect) (he : e ≠ Effect.reload)
    (t : List Effect)
    (hc : List.Chain'
      (fun a b => b = Effect.reload → a = Effect.setItem "coi-reloaded" "1" none) t)
    (hh : t.head? ≠ some Effect.reload) :
    List.Chain' (fun a b => b = Effect.reload → a = Effect.setItem "coi-reloaded" "1" none)
        (t ++ List.replicate n e) ∧
      (t ++ List.replicate n e).head? ≠ some Effect.reload := by
  induction n generalizing t with
  | zero =>
    rw [List.replicate_zero, List.append_nil]
    exact ⟨hc, hh⟩
  | succ n ih =>
    have : List.replicate (n + 1) e = [e] ++ List.replicate n e := by
      rw [List.replicate_succ]
      rfl
    rw [this, ← List.append_assoc]
    obtain ⟨h1, h2⟩ := orderly_append_other t e he hc hh
    exact ih _ h1 h2

/-- A reload that a chain allows sits right after the write of the marker. -/
theorem reload_after_write_of_orderly (t : List Effect)
    (hc : List.Chain' (fun a b => b = Effect.reload → a = Effect.setItem "coi-reloaded" "1" none) t)
    (hh : t.head? ≠ some Effect.reload) (before after : List Effect)
    (ht : t = before ++ Effect.reload :: after) :
    ∃ earlier, before = earlier ++ [Effect.setItem "coi-reloaded" "1" none] := by
  subst ht
  rw [List.chain'_append] at hc
  obtain ⟨_, _, h3⟩ := hc
  rcases List.eq_nil_or_concat before with hb | ⟨L, b, hb⟩
  · subst hb
    exact absurd rfl hh
  · subst hb
    refine ⟨L, ?_⟩
    have := h3 b (by simp) Effect.reload (by simp) rfl
    rw [this, List.concat_eq_append]

/-- What every page load keeps true of its trace and storage. -/
theorem dispatch_keeps (env : Env) (page : Page)
    (h1 : ∀ key value thrown, Effect.setItem key value thrown ∈ page.trace →
      key = "coi-reloaded" ∧ value = "1")
    (h2 : List.Chain' (fun a b => b = Effect.reload → a = Effect.setItem "coi-reloaded" "1" none)
      page.trace)
    (h3 : page.trace.head? ≠ some Effect.reload)
    (h4 : page.storage = env.storage ∨ page.storage = env.storage.withItem "coi-reloaded" "1")
    (h5 : reloadCount page.trace = 0 ∨ page.storage.getItem "coi-reloaded" = some "1")
    (e : Event) :
    (∀ key value thrown, Effect.setItem key value thrown ∈ (dispatch page e).trace →
      key = "coi-reloaded" ∧ value = "1") ∧
    List.Chain' (fun a b => b = Effect.reload → a = Effect.setItem "coi-reloaded" "1" none)
      (dispatch page e).trace ∧
    (dispatch page e).trace.head? ≠ some Effect.reload ∧
    ((dispatch page e).storage = env.storage ∨
      (dispatch page e).storage = env.storage.withItem "coi-reloaded" "1") ∧
    (reloadCount (dispatch page e).trace = 0 ∨
      (dispatch page e).storage.getItem "coi-reloaded" = some "1") := by
  cases e with
  | updatefound installing =>
    rw [dispatch_updatefound]
    split
    · cases installing with
      | none => exact ⟨h1, h2, h3, h4, h5⟩
      | some w =>
        obtain ⟨c1, c2⟩ := orderly_append_other page.trace (Effect.addStatechangeListener w)
          (by simp) h2 h3
        refine ⟨?_, c1, c2, h4, ?_⟩
        · intro key value thrown hm
          have hm2 : Effect.setItem key value thrown ∈ page.trace ++ [Effect.addStatechangeListener w] :=
            hm
          rw [List.mem_append] at hm2
          rcases hm2 with hm2 | hm2
          · exact h1 key value thrown hm2
          · simp at hm2
        · rcases h5 with h5 | h5
          · left
            show reloadCount (page.trace ++ [Effect.addStatechangeListener w]) = 0
            rw [reloadCount_append, h5]
            simp [reloadCount]
          · right
            exact h5
    · exact ⟨h1, h2, h3, h4, h5⟩
  | statechange worker state =>
    by_cases hs : state = "activated" ∨ state = "redundant"
    · by_cases hfits : (page.storage.withItem "coi-reloaded" "1").size ≤ page.quota
      · rw [dispatch_statechange_settled page worker state hs hfits]
        obtain ⟨c1, c2⟩ :=
          orderly_append_markAndReload (page.watched.count worker) page.trace h2 h3
        refine ⟨?_, c1, c2, ?_, ?_⟩
        · intro key value thrown hm
          have hm2 : Effect.setItem key value thrown ∈
              page.trace ++ markAndReload (page.watched.count worker) := hm
          rw [List.mem_append] at hm2
          rcases hm2 with hm2 | hm2
          · exact h1 key value thrown hm2
          · rcases mem_markAndReload _ _ hm2 with h | h
            · simp only [Effect.setItem.injEq] at h
              exact ⟨h.1, h.2.1⟩
            · simp at h
        · show (if page.watched.count worker = 0 then page.storage
              else page.storage.withItem "coi-reloaded" "1") = _ ∨ _
          split
          · exact h4
          · right
            rcases h4 with h4 | h4
            · rw [h4]
            · rw [h4, Storage.withItem_idem]
        · by_cases h0 : page.watched.count worker = 0
          · show reloadCount (page.trace ++ markAndReload (page.watched.count worker)) = 0 ∨
              (if page.watched.count worker = 0 then page.storage
                else page.storage.withItem "coi-reloaded" "1").getItem "coi-reloaded" = some "1"
            rw [h0, if_pos rfl]
            rcases h5 with h5 | h5
            · left
              rw [reloadCount_append, h5]
              rfl
            · right
              exact h5
          · right
            show (if page.watched.count worker = 0 then page.storage
                else page.storage.withItem "coi-reloaded" "1").getItem "coi-reloaded" = some "1"
            rw [if_neg h0]
            exact Storage.getItem_withItem_same _ _ _
      · rw [dispatch_statechange_refused page worker state hs hfits]
        obtain ⟨c1, c2⟩ := orderly_append_replicate (page.watched.count worker)
          (Effect.setItem "coi-reloaded" "1" (some quotaExceededError)) (by simp)
          page.trace h2 h3
        refine ⟨?_, c1, c2, h4, ?_⟩
        · intro key value thrown hm
          have hm2 : Effect.setItem key value thrown ∈
              page.trace ++ List.replicate (page.watched.count worker)
                (Effect.setItem "coi-reloaded" "1" (some quotaExceededError)) := hm
          rw [List.mem_append] at hm2
          rcases hm2 with hm2 | hm2
          · exact h1 key value thrown hm2
          · have h := List.eq_of_mem_replicate hm2
            simp only [Effect.setItem.injEq] at h
            exact ⟨h.1, h.2.1⟩
        · rcases h5 with h5 | h5
          · left
            show reloadCount (page.trace ++ List.replicate _ _) = 0
            rw [reloadCount_append, h5, reloadCount_replicate_refused]
          · right
            exact h5
    · rw [dispatch_statechange_other page worker state hs]
      exact ⟨h1, h2, h3, h4, h5⟩

theorem run_keeps (env : Env) (events : List Event) (page : Page)
    (h1 : ∀ key value thrown, Effect.setItem key value thrown ∈ page.trace →
      key = "coi-reloaded" ∧ value = "1")
    (h2 : List.Chain' (fun a b => b = Effect.reload → a = Effect.setItem "coi-reloaded" "1" none)
      page.trace)
    (h3 : page.trace.head? ≠ some Effect.reload)
    (h4 : page.storage = env.storage ∨ page.storage = env.storage.withItem "coi-reloaded" "1")
    (h5 : reloadCount page.trace = 0 ∨ page.storage.getItem "coi-reloaded" = some "1") :
    (∀ key value thrown, Effect.setItem key value thrown ∈ (run page events).trace →
      key = "coi-reloaded" ∧ value = "1") ∧
    List.Chain' (fun a b => b = Effect.reload → a = Effect.setItem "coi-reloaded" "1" none)
      (run page events).trace ∧
    (run page events).trace.head? ≠ some Effect.reload ∧
    ((run page events).storage = env.storage ∨
      (run page events).storage = env.storage.withItem "coi-reloaded" "1") ∧
    (reloadCount (run page events).trace = 0 ∨
      (run page events).storage.getItem "coi-reloaded" = some "1") := by
  induction events generalizing page with
  | nil => exact ⟨h1, h2, h3, h4, h5⟩
  | cons e t ih =>
    obtain ⟨c1, c2, c3, c4, c5⟩ := dispatch_keeps env page h1 h2 h3 h4 h5 e
    exact ih (dispatch page e) c1 c2 c3 c4 c5

/-- The page as the script leaves it, case by case. -/
theorem coordinator_cases (env : Env) :
    (∃ e, env.storageDenied = some e ∧ coordinator env = Except.error e) ∨
    (∃ page, coordinator env = Except.ok page ∧ page.storage = env.storage ∧
      page.watched = [] ∧ reloadCount page.trace = 0 ∧
      (∀ key value thrown, Effect.setItem key value thrown ∉ page.trace) ∧
      List.Chain' (fun a b => b = Effect.reload → a = Effect.setItem "coi-reloaded" "1" none)
        page.trace ∧
      page.trace.head? ≠ some Effect.reload ∧
      (page.observing = true → truthy (env.storage.getItem "coi-reloaded") = false)) := by
  unfold coordinator
  by_cases h1 : env.crossOriginIsolated = true
  · right
    rw [if_pos h1]
    exact ⟨_, rfl, rfl, rfl, rfl, by simp, by simp, by simp, by simp⟩
  · rw [if_neg h1]
    by_cases h2 : (!env.serviceWorker) = true
    · right
      rw [if_pos h2]
      exact ⟨_, rfl, rfl, rfl, by simp [reloadCount], by simp, by simp, by simp, by simp⟩
    · rw [if_neg h2]
      cases h3 : env.storageDenied with
      | some e =>
        left
        exact ⟨e, rfl, rfl⟩
      | none =>
        right
        cases h4 : env.registerRejects with
        | some err =>
          exact ⟨_, rfl, rfl, rfl, by simp [reloadCount], by simp, by simp [List.Chain'],
            by simp, by simp⟩
        | none =>
          by_cases h5 : truthy (env.storage.getItem "coi-reloaded") = true
          · simp only [h5, if_true]
            exact ⟨_, rfl, rfl, rfl, by simp [reloadCount], by simp, by simp [List.Chain'],
              by simp, by simp⟩
          · simp only [h5]
            exact ⟨_, rfl, rfl, rfl, by simp [reloadCount], by simp, by simp [List.Chain'],
              by simp, by simp [h5]⟩

theorem coordinator_listening (env : Env) (hiso : env.crossOriginIsolated = false)
    (hsw : env.serviceWorker = true) (hacc : env.storageDenied = none)
    (hreg : env.registerRejects = none)
    (hmark : truthy (env.storage.getItem "coi-reloaded") = false) :
    coordinator env =
      Except.ok
        { storage := env.storage
          quota := env.quota
          trace :=
            [Effect.getItem "coi-reloaded", Effect.register "./coi-serviceworker.js",
              Effect.addUpdatefoundListener]
          observing := true
          watched := [] } := by
  unfold coordinator
  simp [hiso, hsw, hacc, hreg, hmark]

theorem coordinator_alreadyReloaded (env : Env) (hiso : env.crossOriginIsolated = false)
    (hsw : env.serviceWorker = true) (hacc : env.storageDenied = none)
    (hreg : env.registerRejects = none)
    (hmark : truthy (env.storage.getItem "coi-reloaded") = true) :
    coordinator env =
      Except.ok
        { storage := env.storage
          quota := env.quota
          trace := [Effect.getItem "coi-reloaded", Effect.register "./coi-serviceworker.js"]
          observing := false
          watched := [] } := by
  unfold coordinator
  simp [hiso, hsw, hacc, hreg, hmark]

theorem pageLoad_of_ok (env : Env) (page : Page) (events : List Event)
    (h : coordinator env = Except.ok page) :
    pageLoad env events = Except.ok (run page events) := by
  unfold pageLoad
  rw [h]

/-- Once the marker reads as set, a page load never reloads. -/
theorem reloads_of_marker (env : Env) (events : List Event)
    (hmark : truthy (env.storage.getItem "coi-reloaded") = true) :
    reloads (pageLoad env events) = 0 := by
  rcases coordinator_cases env with ⟨e, _, he⟩ | ⟨page, hp, _, hw, hr, _, _, _, hobs⟩
  · unfold pageLoad
    rw [he]
    rfl
  · rw [pageLoad_of_ok env page events hp]
    have hidle : page.observing = false := by
      cases hb : page.observing with
      | false => rfl
      | true =>
        have := hobs hb
        rw [hmark] at this
        exact absurd this (by decide)
    rw [run_of_idle page hidle hw]
    exact hr

/-! ## Claims about `coi-serviceworker.js` -/

/-- C1 (as amended).  For every request that the listener does not bypass and every
network response that `new Response` accepts (status within 200..599, a reason-phrase
status text, a null body for a null body status), the promise handed to `respondWith`
resolves with a response in which `Cross-Origin-Opener-Policy` reads exactly
`same-origin` and `Cross-Origin-Embedder-Policy` reads exactly `require-corp`, and every
other name (not `Set-Cookie`/`Set-Cookie2`, which a response never exposes) reads as in
the original response, its combined value trimmed of surrounding whitespace.  Status,
status text and body are those of the original. -/
theorem fetch_injects_isolation_headers (fetch : Request → Except JSError Response)
    (request : Request) (response : Response)
    (hA : ¬ (request.cache = "only-if-cached" ∧ request.mode ≠ "same-origin"))
    (hB : startsWith request.url "chrome-extension://" = false)
    (hfetch : fetch request = Except.ok response)
    (hstatus : 200 ≤ response.status ∧ response.status ≤ 599)
    (htext : isReasonPhrase response.statusText = true)
    (hbody : response.body.isSome = true → isNullBodyStatus response.status = false) :
    ∃ produced, (fetchListener fetch request).respondWith = some (Except.ok produced) ∧
      produced.headers.get "Cross-Origin-Opener-Policy" = some "same-origin" ∧
      produced.headers.get "Cross-Origin-Embedder-Policy" = some "require-corp" ∧
      (∀ name, nameMatches name "Cross-Origin-Opener-Policy" = false →
        nameMatches name "Cross-Origin-Embedder-Policy" = false →
        isForbiddenResponseHeaderName name = false →
        produced.headers.get name = (response.headers.get name).map normalizeValue) ∧
      produced.status = response.status ∧
      produced.statusText = response.statusText ∧
      produced.body = response.body := by
  have h := isolationHeaders_get response.headers
  refine ⟨{ status := response.status
            statusText := response.statusText
            headers := Headers.fill HeadersGuard.response []
              (((Headers.new response.headers).set "Cross-Origin-Opener-Policy"
                (normalizeValue "same-origin")).set "Cross-Origin-Embedder-Policy"
                (normalizeValue "require-corp"))
            body := response.body }, ?_, h.1, h.2.1, h.2.2, rfl, rfl, rfl⟩
  rw [fetchListener_of_ok fetch request response hA hB hfetch,
    Response.new_of_accepted _ _ _ _ hstatus htext hbody]

/-- C1, witness: the theorem at a same-origin request with cache mode `default` and a
`200 OK` response. -/
theorem fetch_injects_isolation_headers_witness :
    ∃ produced, (fetchListener sampleNetwork sampleRequest).respondWith
        = some (Except.ok produced) ∧
      produced.headers.get "Cross-Origin-Opener-Policy" = some "same-origin" ∧
      produced.headers.get "Cross-Origin-Embedder-Policy" = some "require-corp" ∧
      (∀ name, nameMatches name "Cross-Origin-Opener-Policy" = false →
        nameMatches name "Cross-Origin-Embedder-Policy" = false →
        isForbiddenResponseHeaderName name = false →
        produced.headers.get name = (sampleResponse.headers.get name).map normalizeValue) ∧
      produced.status = sampleResponse.status ∧
      produced.statusText = sampleResponse.statusText ∧
      produced.body = sampleResponse.body :=
  fetch_injects_isolation_headers sampleNetwork sampleRequest sampleResponse (by decide) rfl rfl
    (by decide) rfl (by decide)

/-- C1, counterexample.  The server of `sampleResponse` sends
`Cross-Origin-Opener-Policy: unsafe-none`; the response produced for a same-origin
request with cache mode `default` carries `same-origin` under that name instead, so this
original header is not preserved. -/
theorem fetch_overrides_original_opener_policy :
    sampleRequest.cache = "default" ∧
    (fetchListener sampleNetwork sampleRequest).respondWith =
      some (Except.ok
        { status := 200
          statusText := "OK"
          headers :=
            [("content-type", "text/html"), ("cross-origin-embedder-policy", "require-corp"),
              ("cross-origin-opener-policy", "same-origin")]
          body := some [60, 104, 49, 62] }) ∧
    sampleResponse.headers.get "Cross-Origin-Opener-Policy" = some "unsafe-none" ∧
    HeaderList.get
        [("content-type", "text/html"), ("cross-origin-embedder-policy", "require-corp"),
          ("cross-origin-opener-policy", "same-origin")]
        "Cross-Origin-Opener-Policy" = some "same-origin" := by
  refine ⟨rfl, rfl, ?_, ?_⟩ <;> decide

/-- C3.  A request with cache mode `only-if-cached` and a mode other than `same-origin`
is left to the browser: the listener calls neither `fetch` nor `respondWith` and
constructs nothing, whatever the URL. -/
theorem bypass_only_if_cached (fetch : Request → Except JSError Response) (request : Request)
    (hcache : request.cache = "only-if-cached") (hmode : request.mode ≠ "same-origin") :
    (fetchListener fetch request).calls = [] ∧
      (fetchListener fetch request).respondWith = none := by
  unfold fetchListener
  rw [if_pos ⟨hcache, hmode⟩]
  exact ⟨rfl, rfl⟩

/-- C3, witness: a `cors` request with cache mode `only-if-cached`. -/
theorem bypass_only_if_cached_witness :
    (fetchListener sampleNetwork
        { url := "https://example.org/data.json", cache := "only-if-cached", mode := "cors" }).calls
      = [] ∧
    (fetchListener sampleNetwork
        { url := "https://example.org/data.json", cache := "only-if-cached",
          mode := "cors" }).respondWith
      = none :=
  bypass_only_if_cached sampleNetwork
    { url := "https://example.org/data.json", cache := "only-if-cached", mode := "cors" }
    rfl (by decide)

/-- C4.  A request whose URL begins with `chrome-extension://` is left to the browser,
whatever its cache mode and request mode: the listener calls neither `fetch` nor
`respondWith`. -/
theorem bypass_chrome_extension (fetch : Request → Except JSError Response) (request : Request)
    (hurl : startsWith request.url "chrome-extension://" = true) :
    (fetchListener fetch request).calls = [] ∧
      (fetchListener fetch request).respondWith = none := by
  unfold fetchListener
  by_cases hA : request.cache = "only-if-cached" ∧ request.mode ≠ "same-origin"
  · rw [if_pos hA]
    exact ⟨rfl, rfl⟩
  · rw [if_neg hA, if_pos hurl]
    exact ⟨rfl, rfl⟩

/-- C4, witness: an extension resource requested with the default cache mode. -/
theorem bypass_chrome_extension_witness :
    (fetchListener sampleNetwork
        { url := "chrome-extension://abcdefgh/content.js", cache := "default",
          mode := "no-cors" }).calls
      = [] ∧
    (fetchListener sampleNetwork
        { url := "chrome-extension://abcdefgh/content.js", cache := "default",
          mode := "no-cors" }).respondWith
      = none :=
  bypass_chrome_extension sampleNetwork
    { url := "chrome-extension://abcdefgh/content.js", cache := "default", mode := "no-cors" }
    (by decide)

/-- C8, evaluated at the failing input.  For a cross-origin `no-cors` request the
network yields an opaque response (status 0, null body); the listener fetches it, copies
its headers, sets the two isolation headers and then `new Response` throws a
`RangeError`, so the promise handed to `respondWith` rejects instead of resolving with a
copy of the response. -/
theorem opaque_response_is_rejected :
    (fetchListener opaqueNetwork imageRequest).calls =
      [Call.fetch imageRequest, Call.newHeaders,
        Call.headersSet "Cross-Origin-Opener-Policy" "same-origin",
        Call.headersSet "Cross-Origin-Embedder-Policy" "require-corp", Call.newResponse] ∧
    (fetchListener opaqueNetwork imageRequest).respondWith =
      some (Except.error
        { name := "RangeError"
          message := "The status provided is outside the range [200, 599]." }) :=
  ⟨rfl, rfl⟩

/-- Every status outside 200..599 is refused in the same way: for a request that is not
bypassed, the promise handed to `respondWith` rejects with the `RangeError` of
`new Response`. -/
theorem fetchListener_rejects_refused_status (fetch : Request → Except JSError Response)
    (request : Request) (response : Response)
    (hA : ¬ (request.cache = "only-if-cached" ∧ request.mode ≠ "same-origin"))
    (hB : startsWith request.url "chrome-extension://" = false)
    (hfetch : fetch request = Except.ok response)
    (hstatus : ¬ (200 ≤ response.status ∧ response.status ≤ 599)) :
    (fetchListener fetch request).respondWith =
      some (Except.error
        { name := "RangeError"
          message := "The status provided is outside the range [200, 599]." }) := by
  rw [fetchListener_of_ok fetch request response hA hB hfetch]
  unfold Response.new
  rw [if_pos hstatus]

/-- C9.  When the network fetch of a request that is not bypassed fails with `e`, the
promise handed to `respondWith` rejects with the same `e`, and the only platform call
made is the one `fetch(request)`: no retry, no `Headers`, no `Response`. -/
theorem fetch_failure_propagates (fetch : Request → Except JSError Response)
    (request : Request) (e : JSError)
    (hA : ¬ (request.cache = "only-if-cached" ∧ request.mode ≠ "same-origin"))
    (hB : startsWith request.url "chrome-extension://" = false)
    (hfetch : fetch request = Except.error e) :
    (fetchListener fetch request).respondWith = some (Except.error e) ∧
      (fetchListener fetch request).calls = [Call.fetch request] := by
  unfold fetchListener
  rw [if_neg hA, hB, if_neg Bool.false_ne_true, hfetch]
  exact ⟨rfl, rfl⟩

/-- C9, witness: the network is unreachable. -/
theorem fetch_failure_propagates_witness :
    (fetchListener (fun _ => Except.error ⟨"TypeError", "Failed to fetch"⟩)
        sampleRequest).respondWith
      = some (Except.error ⟨"TypeError", "Failed to fetch"⟩) ∧
    (fetchListener (fun _ => Except.error ⟨"TypeError", "Failed to fetch"⟩)
        sampleRequest).calls
      = [Call.fetch sampleRequest] :=
  fetch_failure_propagates (fun _ => Except.error ⟨"TypeError", "Failed to fetch"⟩)
    sampleRequest ⟨"TypeError", "Failed to fetch"⟩ (by decide) rfl rfl

/-! ## Claims about `enable_coi.js` -/

/-- C5.  On a page that is already cross-origin isolated the script returns at once
without an exception, and whatever else the environment holds and whatever events
follow, the page load performs no action at all: its trace is empty (no `register`, no
`reload`, no `getItem`, no `setItem`, no warning), no listener is attached and the
storage is as it was. -/
theorem isolated_page_does_nothing (env : Env) (events : List Event)
    (hiso : env.crossOriginIsolated = true) :
    coordinator env =
        Except.ok
          { storage := env.storage
            quota := env.quota
            trace := []
            observing := false
            watched := [] } ∧
      pageLoad env events =
        Except.ok
          { storage := env.storage
            quota := env.quota
            trace := []
            observing := false
            watched := [] } := by
  have h : coordinator env =
      Except.ok
        { storage := env.storage
          quota := env.quota
          trace := []
          observing := false
          watched := [] } := by
    unfold coordinator
    rw [if_pos hiso]
  refine ⟨h, ?_⟩
  rw [pageLoad_of_ok env _ events h, run_of_idle _ rfl rfl]

/-- C5, witness: an isolated page without service-worker support, denied access to
storage, which receives events. -/
theorem isolated_page_does_nothing_witness :
    coordinator
        { crossOriginIsolated := true
          serviceWorker := false
          storageDenied := some ⟨"SecurityError", "The operation is insecure."⟩
          storage := [("coi-reloaded", "1")]
          quota := 5000000
          registerRejects := none } =
      Except.ok
        { storage := [("coi-reloaded", "1")]
          quota := 5000000
          trace := []
          observing := false
          watched := [] } ∧
    pageLoad
        { crossOriginIsolated := true
          serviceWorker := false
          storageDenied := some ⟨"SecurityError", "The operation is insecure."⟩
          storage := [("coi-reloaded", "1")]
          quota := 5000000
          registerRejects := none }
        [Event.updatefound (some 1), Event.statechange 1 "activated"] =
      Except.ok
        { storage := [("coi-reloaded", "1")]
          quota := 5000000
          trace := []
          observing := false
          watched := [] } :=
  isolated_page_does_nothing
    { crossOriginIsolated := true
      serviceWorker := false
      storageDenied := some ⟨"SecurityError", "The operation is insecure."⟩
      storage := [("coi-reloaded", "1")]
      quota := 5000000
      registerRejects := none }
    [Event.updatefound (some 1), Event.statechange 1 "activated"] rfl

/-- C6.  On a page that is not isolated and whose `navigator` has no `serviceWorker`,
the script completes without an exception; the page load's whole trace is the one
warning (so no registration, no reload, no storage access), and the storage at the end
is the storage at the start. -/
theorem unsupported_page_only_warns (env : Env) (events : List Event)
    (hiso : env.crossOriginIsolated = false) (hsw : env.serviceWorker = false) :
    coordinator env =
        Except.ok
          { storage := env.storage
            quota := env.quota
            trace :=
              [Effect.warn "COOP/COEP service worker not available: serviceWorker API missing."
                none]
            observing := false
            watched := [] } ∧
      pageLoad env events =
        Except.ok
          { storage := env.storage
            quota := env.quota
            trace :=
              [Effect.warn "COOP/COEP service worker not available: serviceWorker API missing."
                none]
            observing := false
            watched := [] } := by
  have h : coordinator env =
      Except.ok
        { storage := env.storage
          quota := env.quota
          trace :=
            [Effect.warn "COOP/COEP service worker not available: serviceWorker API missing."
              none]
          observing := false
          watched := [] } := by
    unfold coordinator
    simp [hiso, hsw]
  refine ⟨h, ?_⟩
  rw [pageLoad_of_ok env _ events h, run_of_idle _ rfl rfl]

/-- C6, witness: a browser without service workers, with some storage content. -/
theorem unsupported_page_only_warns_witness :
    coordinator
        { crossOriginIsolated := false
          serviceWorker := false
          storageDenied := none
          storage := [("score", "12")]
          quota := 5000000
          registerRejects := none } =
      Except.ok
        { storage := [("score", "12")]
          quota := 5000000
          trace :=
            [Effect.warn "COOP/COEP service worker not available: serviceWorker API missing."
              none]
          observing := false
          watched := [] } ∧
    pageLoad
        { crossOriginIsolated := false
          serviceWorker := false
          storageDenied := none
          storage := [("score", "12")]
          quota := 5000000
          registerRejects := none }
        [Event.statechange 1 "redundant"] =
      Except.ok
        { storage := [("score", "12")]
          quota := 5000000
          trace :=
            [Effect.warn "COOP/COEP service worker not available: serviceWorker API missing."
              none]
          observing := false
          watched := [] } :=
  unsupported_page_only_warns
    { crossOriginIsolated := false
      serviceWorker := false
      storageDenied := none
      storage := [("score", "12")]
      quota := 5000000
      registerRejects := none }
    [Event.statechange 1 "redundant"] rfl rfl

/-- C7.  When the marker `coi-reloaded` is present at startup (holding a non-empty
value, as the `"1"` that the script writes) and registration succeeds, the page load
consists of the read of the marker and the registration only, whatever events follow:
no `updatefound` listener is attached, `location.reload()` is never called and the
storage is never written. -/
theorem marker_stops_reload (env : Env) (events : List Event) (value : String)
    (hiso : env.crossOriginIsolated = false) (hsw : env.serviceWorker = true)
    (hacc : env.storageDenied = none) (hreg : env.registerRejects = none)
    (hmark : env.storage.getItem "coi-reloaded" = some value) (hvalue : value ≠ "") :
    pageLoad env events =
      Except.ok
        { storage := env.storage
          quota := env.quota
          trace := [Effect.getItem "coi-reloaded", Effect.register "./coi-serviceworker.js"]
          observing := false
          watched := [] } := by
  have ht : truthy (env.storage.getItem "coi-reloaded") = true := by
    rw [hmark]
    simp [truthy, hvalue]
  rw [pageLoad_of_ok env _ events (coordinator_alreadyReloaded env hiso hsw hacc hreg ht),
    run_of_idle _ rfl rfl]

/-- C7, witness: the marker as the script itself writes it. -/
theorem marker_stops_reload_witness :
    pageLoad { firstVisit with storage := [("coi-reloaded", "1")] }
        [Event.updatefound (some 1), Event.statechange 1 "activated"] =
      Except.ok
        { storage := [("coi-reloaded", "1")]
          quota := 5000000
          trace := [Effect.getItem "coi-reloaded", Effect.register "./coi-serviceworker.js"]
          observing := false
          watched := [] } :=
  marker_stops_reload { firstVisit with storage := [("coi-reloaded", "1")] }
    [Event.updatefound (some 1), Event.statechange 1 "activated"] "1" rfl rfl rfl rfl
    (by decide) (by decide)

/-- C2, counterexample.  On a first visit (marker unset, registration succeeds) the
installing worker reports `activated` and later `redundant`, both delivered to the
listener: `location.reload()` is called twice.  It is also called twice when two
`updatefound` events read the same installing worker, which then carries two listeners,
and that worker reports `activated` once. -/
theorem settled_twice_reloads_twice :
    firstVisit.storage.getItem "coi-reloaded" = none ∧
    firstVisit.registerRejects = none ∧
    reloads (pageLoad firstVisit
      [Event.updatefound (some 1), Event.statechange 1 "activated",
        Event.statechange 1 "redundant"]) = 2 ∧
    reloads (pageLoad firstVisit
      [Event.updatefound (some 1), Event.updatefound (some 1),
        Event.statechange 1 "activated"]) = 2 := by
  refine ⟨rfl, rfl, ?_, ?_⟩ <;> decide

/-- C2 (as amended).  Starting with the marker unset and a successful registration, for
every finite sequence of `updatefound` and `statechange` events in which no event is
delivered once `location.reload()` has been called (the reload tears the page down) and
in which the `updatefound` events read pairwise different installing workers, the page
load calls `location.reload()` at most once.  If it does, the marker then reads `"1"`, and
every later page load of the session, whatever its environment and events otherwise,
calls `location.reload()` zero times. -/
theorem at_most_one_reload_until_teardown (env : Env) (events : List Event)
    (hiso : env.crossOriginIsolated = false) (hsw : env.serviceWorker = true)
    (hacc : env.storageDenied = none) (hreg : env.registerRejects = none)
    (hunset : env.storage.getItem "coi-reloaded" = none)
    (hdistinct : (installingWorkers events).Nodup)
    (hteardown : ∀ n, n < events.length → reloads (pageLoad env (events.take n)) = 0) :
    ∃ page, pageLoad env events = Except.ok page ∧ reloadCount page.trace ≤ 1 ∧
      (reloadCount page.trace = 1 →
        page.storage.getItem "coi-reloaded" = some "1" ∧
        ∀ (later : Env) (laterEvents : List Event), later.storage = page.storage →
          reloads (pageLoad later laterEvents) = 0) := by
  have hstart := coordinator_listening env hiso hsw hacc hreg (by rw [hunset]; rfl)
  obtain ⟨p0, hp0⟩ : ∃ p0 : Page, p0 =
      { storage := env.storage
        quota := env.quota
        trace :=
          [Effect.getItem "coi-reloaded", Effect.register "./coi-serviceworker.js",
            Effect.addUpdatefoundListener]
        observing := true
        watched := [] } := ⟨_, rfl⟩
  rw [← hp0] at hstart
  have hcount0 : reloadCount p0.trace = 0 := by
    rw [hp0]
    show reloadCount
      [Effect.getItem "coi-reloaded", Effect.register "./coi-serviceworker.js",
        Effect.addUpdatefoundListener] = 0
    decide
  refine ⟨run p0 events, pageLoad_of_ok env p0 events hstart, ?_, ?_⟩
  · rcases List.eq_nil_or_concat events with hnil | ⟨pre, e, hev⟩
    · subst hnil
      show reloadCount p0.trace ≤ 1
      rw [hcount0]
      exact Nat.zero_le 1
    · rw [List.concat_eq_append] at hev
      subst hev
      have hpre := hteardown pre.length (by simp)
      rw [List.take_left' rfl, pageLoad_of_ok env p0 pre hstart] at hpre
      have hpre2 : reloadCount (run p0 pre).trace = 0 := hpre
      rw [run_append]
      have hnd : (run p0 pre).watched.Nodup := by
        rw [run_watched, hp0]
        rw [installingWorkers_append] at hdistinct
        simpa using (List.nodup_append.mp hdistinct).1
      have hle := reloadCount_dispatch_le (run p0 pre) e hnd
      rw [hpre2] at hle
      exact hle
  · intro hone
    obtain ⟨_, _, _, _, k5⟩ := run_keeps env events p0
      (by rw [hp0]; simp) (by rw [hp0]; simp [List.Chain']) (by rw [hp0]; simp)
      (Or.inl (by rw [hp0])) (Or.inl hcount0)
    have hm : (run p0 events).storage.getItem "coi-reloaded" = some "1" := by
      rcases k5 with k5 | k5
      · rw [k5] at hone
        exact absurd hone (by decide)
      · exact k5
    refine ⟨hm, ?_⟩
    intro later laterEvents hst
    apply reloads_of_marker
    rw [hst, hm]
    decide

/-- C2, witness: a first visit on which the installing worker becomes `activated` and
nothing is delivered afterwards. -/
theorem at_most_one_reload_until_teardown_witness :
    ∃ page,
      pageLoad firstVisit [Event.updatefound (some 1), Event.statechange 1 "activated"] =
        Except.ok page ∧
      reloadCount page.trace ≤ 1 ∧
      (reloadCount page.trace = 1 →
        page.storage.getItem "coi-reloaded" = some "1" ∧
        ∀ (later : Env) (laterEvents : List Event), later.storage = page.storage →
          reloads (pageLoad later laterEvents) = 0) :=
  at_most_one_reload_until_teardown firstVisit
    [Event.updatefound (some 1), Event.statechange 1 "activated"] rfl rfl rfl rfl rfl
    (by decide) (by decide)

/-- C10, counterexample.  In a browser that refuses every write to session storage
(marker unset, registration succeeds), the installing worker becomes `activated`:
`setItem` throws, the exception leaves the listener, nothing is written and
`location.reload()` is not called. -/
theorem refused_write_skips_reload :
    refusingVisit.storage.getItem "coi-reloaded" = none ∧
    refusingVisit.registerRejects = none ∧
    pageLoad refusingVisit [Event.updatefound (some 1), Event.statechange 1 "activated"] =
      Except.ok
        { storage := []
          quota := 0
          trace :=
            [Effect.getItem "coi-reloaded", Effect.register "./coi-serviceworker.js",
              Effect.addUpdatefoundListener, Effect.addStatechangeListener 1,
              Effect.setItem "coi-reloaded" "1" (some quotaExceededError)]
          observing := true
          watched := [1] } ∧
    reloads (pageLoad refusingVisit
      [Event.updatefound (some 1), Event.statechange 1 "activated"]) = 0 :=
  ⟨rfl, rfl, rfl, rfl⟩

/-- C10 (as amended).  Let the marker be unset at startup and the registration succeed,
and let any events have been delivered.  A `statechange` event on a worker that an
`updatefound` listener read as installing runs one listener per such read.  When the
worker's state is `activated` or `redundant` and the storage takes the write, each
listener writes `coi-reloaded = "1"` and then calls `location.reload()`; when the state
is one of these two and `setItem` throws, each listener stops at the write, nothing is
written and nothing reloads; for any other state nothing happens at all.  An
`updatefound` event with no installing worker changes nothing.  In every page load
whatsoever, each `setItem` call in the trace is `setItem("coi-reloaded", "1")`, each
`reload` comes right after such a call that returned, and the storage at the end is the
initial storage, or the initial storage with `coi-reloaded` set to `"1"`. -/
theorem reload_trigger (env : Env) (events : List Event) :
    (env.crossOriginIsolated = false → env.serviceWorker = true → env.storageDenied = none →
      env.registerRejects = none → env.storage.getItem "coi-reloaded" = none →
      ∃ page, pageLoad env events = Except.ok page ∧
        (∀ worker state, worker ∈ installingWorkers events →
          0 < (installingWorkers events).count worker ∧
          ((state = "activated" ∨ state = "redundant") →
            (env.storage.withItem "coi-reloaded" "1").size ≤ env.quota →
            dispatch page (Event.statechange worker state) =
              { page with
                storage := page.storage.withItem "coi-reloaded" "1"
                trace :=
                  page.trace ++ markAndReload ((installingWorkers events).count worker) }) ∧
          ((state = "activated" ∨ state = "redundant") →
            ¬ (env.storage.withItem "coi-reloaded" "1").size ≤ env.quota →
            dispatch page (Event.statechange worker state) =
              { page with
                trace :=
                  page.trace ++
                    List.replicate ((installingWorkers events).count worker)
                      (Effect.setItem "coi-reloaded" "1" (some quotaExceededError)) }) ∧
          (¬ (state = "activated" ∨ state = "redundant") →
            dispatch page (Event.statechange worker state) = page)) ∧
        dispatch page (Event.updatefound none) = page) ∧
    (∀ page, pageLoad env events = Except.ok page →
      (∀ key value thrown, Effect.setItem key value thrown ∈ page.trace →
        key = "coi-reloaded" ∧ value = "1") ∧
      (∀ before after, page.trace = before ++ Effect.reload :: after →
        ∃ earlier, before = earlier ++ [Effect.setItem "coi-reloaded" "1" none]) ∧
      (page.storage = env.storage ∨
        page.storage = env.storage.withItem "coi-reloaded" "1")) := by
  constructor
  · intro hiso hsw hacc hreg hunset
    have hstart := coordinator_listening env hiso hsw hacc hreg (by rw [hunset]; rfl)
    obtain ⟨p0, hp0⟩ : ∃ p0 : Page, p0 =
        { storage := env.storage
          quota := env.quota
          trace :=
            [Effect.getItem "coi-reloaded", Effect.register "./coi-serviceworker.js",
              Effect.addUpdatefoundListener]
          observing := true
          watched := [] } := ⟨_, rfl⟩
    rw [← hp0] at hstart
    have hwatched : (run p0 events).watched = installingWorkers events := by
      rw [run_watched, hp0]
      simp
    have hquota : (run p0 events).quota = env.quota := by
      rw [run_quota, hp0]
    obtain ⟨_, _, _, k4, _⟩ := run_keeps env events p0
      (by rw [hp0]; simp) (by rw [hp0]; simp [List.Chain']) (by rw [hp0]; simp)
      (Or.inl (by rw [hp0]))
      (Or.inl (by
        rw [hp0]
        show reloadCount
          [Effect.getItem "coi-reloaded", Effect.register "./coi-serviceworker.js",
            Effect.addUpdatefoundListener] = 0
        decide))
    have hsize : ((run p0 events).storage.withItem "coi-reloaded" "1").size
        = (env.storage.withItem "coi-reloaded" "1").size := by
      rcases k4 with k4 | k4
      · rw [k4]
      · rw [k4, Storage.withItem_idem]
    refine ⟨run p0 events, pageLoad_of_ok env p0 events hstart, ?_, ?_⟩
    · intro worker state hw
      have hpos : 0 < (installingWorkers events).count worker := List.count_pos_iff.mpr hw
      refine ⟨hpos, ?_, ?_, ?_⟩
      · intro hs hfits
        have hfits2 : ((run p0 events).storage.withItem "coi-reloaded" "1").size
            ≤ (run p0 events).quota := by
          rw [hsize, hquota]
          exact hfits
        rw [dispatch_statechange_settled _ worker state hs hfits2, hwatched,
          if_neg (Nat.pos_iff_ne_zero.mp hpos)]
      · intro hs hfull
        have hfull2 : ¬ ((run p0 events).storage.withItem "coi-reloaded" "1").size
            ≤ (run p0 events).quota := by
          rw [hsize, hquota]
          exact hfull
        rw [dispatch_statechange_refused _ worker state hs hfull2, hwatched]
      · intro hs
        exact dispatch_statechange_other _ worker state hs
    · rw [dispatch_updatefound]
      split <;> rfl
  · intro page hpage
    rcases coordinator_cases env with ⟨e, _, he⟩ | ⟨p0, hp, hst, _, hr, hset, hch, hhd, _⟩
    · unfold pageLoad at hpage
      rw [he] at hpage
      cases hpage
    · rw [pageLoad_of_ok env p0 events hp] at hpage
      injection hpage with hpage
      subst hpage
      obtain ⟨k1, k2, k3, k4, _⟩ := run_keeps env events p0
        (fun key value thrown hm => absurd hm (hset key value thrown)) hch hhd (Or.inl hst)
        (Or.inl hr)
      exact ⟨k1, reload_after_write_of_orderly _ k2 k3, k4⟩

/-- C10, witness: a first visit on which worker 1 has been seen installing, in a browser
whose storage takes the write. -/
theorem reload_trigger_witness :
    (1 ∈ installingWorkers [Event.updatefound (some 1)] ∧
      (firstVisit.storage.withItem "coi-reloaded" "1").size ≤ firstVisit.quota) ∧
    (∃ page, pageLoad firstVisit [Event.updatefound (some 1)] = Except.ok page ∧
        (∀ worker state, worker ∈ installingWorkers [Event.updatefound (some 1)] →
          0 < (installingWorkers [Event.updatefound (some 1)]).count worker ∧
          ((state = "activated" ∨ state = "redundant") →
            (firstVisit.storage.withItem "coi-reloaded" "1").size ≤ firstVisit.quota →
            dispatch page (Event.statechange worker state) =
              { page with
                storage := page.storage.withItem "coi-reloaded" "1"
                trace :=
                  page.trace ++
                    markAndReload ((installingWorkers [Event.updatefound (some 1)]).count worker) }) ∧
          ((state = "activated" ∨ state = "redundant") →
            ¬ (firstVisit.storage.withItem "coi-reloaded" "1").size ≤ firstVisit.quota →
            dispatch page (Event.statechange worker state) =
              { page with
                trace :=
                  page.trace ++
                    List.replicate ((installingWorkers [Event.updatefound (some 1)]).count worker)
                      (Effect.setItem "coi-reloaded" "1" (some quotaExceededError)) }) ∧
          (¬ (state = "activated" ∨ state = "redundant") →
            dispatch page (Event.statechange worker state) = page)) ∧
        dispatch page (Event.updatefound none) = page) ∧
    (∀ page, pageLoad firstVisit [Event.updatefound (some 1)] = Except.ok page →
      (∀ key value thrown, Effect.setItem key value thrown ∈ page.trace →
        key = "coi-reloaded" ∧ value = "1") ∧
      (∀ before after, page.trace = before ++ Effect.reload :: after →
        ∃ earlier, before = earlier ++ [Effect.setItem "coi-reloaded" "1" none]) ∧
      (page.storage = firstVisit.storage ∨
        page.storage = firstVisit.storage.withItem "coi-reloaded" "1")) :=
  ⟨⟨by decide, by decide⟩,
    (reload_trigger firstVisit [Event.updatefound (some 1)]).1 rfl rfl rfl rfl rfl,
    (reload_trigger firstVisit [Event.updatefound (some 1)]).2⟩

end NeonCatcher
